import Mathlib

/-!
# Verification of the d3x N-body simulation core

Shallow embedding of the d3x engine (SoA body store, O(n²) pairwise gravity
solver, and the three integrators: fixed-step RK4, adaptive Dormand–Prince
5(4), symplectic leapfrog), with proofs of the specification claims.

Modelling conventions:
* the C++ `real = double` is modelled by `ℝ` (exact real arithmetic);
  `std::sqrt` is `Real.sqrt`, `std::pow(x, 0.2)` is `Real.rpow x 0.2`,
  `std::abs` is `|·|`, `std::clamp(v, lo, hi)` is `max lo (min hi v)`
  (equal for `lo ≤ hi`);
* the C++ `std::vector<real>` fields are `List ℝ`; every mutation loop in the
  source runs over indices `i < count` and reads/writes the parallel vectors
  at `i`, so a loop `for i < n : X[i] = e i` is embedded as the length-`n`
  list `seqN n e` and an element read `X[i]` as `sget X i` (`getD` with
  default `0`; the source never reads out of range under the store's core
  length invariant `Wf`, which is proved to be preserved by every operation);
* the thread-local scratch buffers of the integrators (`save_state` /
  `restore_state` copy the first `count` elements) are embedded by value:
  `copyN n l` is the copy of the first `n` elements of `l`.
-/

/-- 3D vector, from `Vec3` in types.hpp. -/
structure Vec3 where
  x : ℝ
  y : ℝ
  z : ℝ

namespace constants

/-- Gravitational constant [m³/(kg·s²)], from constants in types.hpp. -/
def G : ℝ := 6.67430e-11

end constants

/-- Adaptive integrator step result, from `StepResult` in types.hpp. -/
structure StepResult where
  dt_used : ℝ
  dt_next : ℝ
  error_estimate : ℝ

/-- SoA body container, from `World` in world.hpp: three position sequences,
three velocity sequences, three acceleration scratch sequences, mass, body
count and elapsed simulation time. -/
@[ext] structure World where
  px : List ℝ
  py : List ℝ
  pz : List ℝ
  vx : List ℝ
  vy : List ℝ
  vz : List ℝ
  ax : List ℝ
  ay : List ℝ
  az : List ℝ
  mass : List ℝ
  count : ℕ
  time : ℝ

/-- Element read `l[i]` (in-range under `World.Wf`). -/
def sget (l : List ℝ) (i : ℕ) : ℝ := l.getD i 0

/-- The list `[f 0, …, f (n-1)]`: result of a loop `for i < n : X[i] = f i`
over a vector of length `n`. -/
def seqN (n : ℕ) (f : ℕ → ℝ) : List ℝ := (List.range n).map f

/-- Copy of the first `n` elements of `l` (`save_state` / `restore_state`
style element-wise copy loops). -/
def copyN (n : ℕ) (l : List ℝ) : List ℝ := seqN n (sget l)

namespace World

/-- The store's core invariant: all ten parallel sequences have length equal
to the body count. -/
structure Wf (w : World) : Prop where
  hpx : w.px.length = w.count
  hpy : w.py.length = w.count
  hpz : w.pz.length = w.count
  hvx : w.vx.length = w.count
  hvy : w.vy.length = w.count
  hvz : w.vz.length = w.count
  hax : w.ax.length = w.count
  hay : w.ay.length = w.count
  haz : w.az.length = w.count
  hmass : w.mass.length = w.count

/-- `World::reserve`: a pure capacity hint — no observable state change
(the vectors' *contents*, counts and time are untouched by `reserve`). -/
def reserve (w : World) (_n : ℕ) : World := w

/-- `World::add_body`: appends one entry to every parallel sequence
(acceleration initialized to zero), increments `count`, returns the pre-call
count as the new body's index. -/
def add_body (w : World) (pos vel : Vec3) (m : ℝ) : World × ℕ :=
  ({ px := w.px ++ [pos.x], py := w.py ++ [pos.y], pz := w.pz ++ [pos.z]
     vx := w.vx ++ [vel.x], vy := w.vy ++ [vel.y], vz := w.vz ++ [vel.z]
     ax := w.ax ++ [0.0],   ay := w.ay ++ [0.0],   az := w.az ++ [0.0]
     mass := w.mass ++ [m]
     count := w.count + 1
     time := w.time }, w.count)

/-- `World::clear`: empties all sequences, resets count to 0 and time to 0. -/
def clear (_w : World) : World :=
  { px := [], py := [], pz := [], vx := [], vy := [], vz := []
    ax := [], ay := [], az := [], mass := []
    count := 0, time := 0.0 }

/-- A world with no bodies at time zero. -/
def emptyWorld : World :=
  { px := [], py := [], pz := [], vx := [], vy := [], vz := []
    ax := [], ay := [], az := [], mass := []
    count := 0, time := 0.0 }

/-- `World::kinetic_energy`: Σ ½·m·|v|². -/
def kinetic_energy (w : World) : ℝ :=
  (List.range w.count).foldl
    (fun ke i =>
      ke + 0.5 * sget w.mass i *
        (sget w.vx i * sget w.vx i + sget w.vy i * sget w.vy i +
          sget w.vz i * sget w.vz i)) 0.0

/-- `World::potential_energy`: Σ over pairs i<j of −G·mᵢ·mⱼ/r. -/
noncomputable def potential_energy (w : World) : ℝ :=
  (List.range w.count).foldl
    (fun pe i =>
      (List.range' (i + 1) (w.count - (i + 1))).foldl
        (fun pe j =>
          let dx := sget w.px j - sget w.px i
          let dy := sget w.py j - sget w.py i
          let dz := sget w.pz j - sget w.pz i
          let r := Real.sqrt (dx * dx + dy * dy + dz * dz)
          pe - constants.G * sget w.mass i * sget w.mass j / r) pe) 0.0

/-- `World::total_energy` = kinetic + potential. -/
noncomputable def total_energy (w : World) : ℝ :=
  kinetic_energy w + potential_energy w

/-- `World::angular_momentum`: Σ mᵢ·(rᵢ × vᵢ). -/
def angular_momentum (w : World) : Vec3 :=
  (List.range w.count).foldl
    (fun L i =>
      { x := L.x + sget w.mass i * (sget w.py i * sget w.vz i - sget w.pz i * sget w.vy i)
        y := L.y + sget w.mass i * (sget w.pz i * sget w.vx i - sget w.px i * sget w.vz i)
        z := L.z + sget w.mass i * (sget w.px i * sget w.vy i - sget w.py i * sget w.vx i) })
    ⟨0.0, 0.0, 0.0⟩

end World

/-! ## Gravity solver (gravity.cpp)

`compute_gravity(World&, real softening)` zeroes the acceleration vectors
(`std::fill` over the whole vectors) and then iterates all unordered pairs
`(i, j)`, `i < j < count`, accumulating the pairwise contribution positively
into body `i`'s local accumulator and, by Newton's third law, subtracting the
mirrored contribution (scaled by body `i`'s mass) from body `j`'s entry; after
the inner loop body `i`'s accumulator is added to its entry. -/

/-- Loop state of the pairwise accumulation: the three acceleration sequences
being built plus the local accumulators `axi, ayi, azi` of the current outer
body `i`. -/
structure GravAcc where
  ax : List ℝ
  ay : List ℝ
  az : List ℝ
  axi : ℝ
  ayi : ℝ
  azi : ℝ

/-- One iteration of the inner `j`-loop of `compute_gravity` (the body of
`for (j = i+1; j < n; ++j)`). -/
noncomputable def gravInner (w : World) (eps2 : ℝ) (i : ℕ) (st : GravAcc) (j : ℕ) :
    GravAcc :=
  let dx := sget w.px j - sget w.px i
  let dy := sget w.py j - sget w.py i
  let dz := sget w.pz j - sget w.pz i
  let dist2 := dx * dx + dy * dy + dz * dz + eps2
  let dist := Real.sqrt dist2
  let inv_dist3 := 1.0 / (dist2 * dist)
  let fx := constants.G * dx * inv_dist3
  let fy := constants.G * dy * inv_dist3
  let fz := constants.G * dz * inv_dist3
  let mi := sget w.mass i
  let mj := sget w.mass j
  { ax := st.ax.set j (sget st.ax j - fx * mi)
    ay := st.ay.set j (sget st.ay j - fy * mi)
    az := st.az.set j (sget st.az j - fz * mi)
    axi := st.axi + fx * mj
    ayi := st.ayi + fy * mj
    azi := st.azi + fz * mj }

/-- One iteration of the outer `i`-loop of `compute_gravity`: run the inner
loop over `j ∈ [i+1, count)` with fresh zero accumulators, then add the
accumulators into entry `i`. -/
noncomputable def gravOuter (w : World) (eps2 : ℝ)
    (acc : List ℝ × List ℝ × List ℝ) (i : ℕ) : List ℝ × List ℝ × List ℝ :=
  let st0 : GravAcc := ⟨acc.1, acc.2.1, acc.2.2, 0.0, 0.0, 0.0⟩
  let st := (List.range' (i + 1) (w.count - (i + 1))).foldl (gravInner w eps2 i) st0
  (st.ax.set i (sget st.ax i + st.axi),
   st.ay.set i (sget st.ay i + st.ayi),
   st.az.set i (sget st.az i + st.azi))

/-- `compute_gravity(World&, real softening)`: zero the acceleration
sequences, then run the pairwise accumulation. Only the acceleration fields
of the store are written. -/
noncomputable def compute_gravity (w : World) (softening : ℝ) : World :=
  let eps2 := softening * softening
  let zeroed := ((w.ax.map fun _ => (0.0 : ℝ)),
                 (w.ay.map fun _ => (0.0 : ℝ)),
                 (w.az.map fun _ => (0.0 : ℝ)))
  let r := (List.range w.count).foldl (gravOuter w eps2) zeroed
  { w with ax := r.1, ay := r.2.1, az := r.2.2 }

/-- The one-argument overload `compute_gravity(World&)`: its body is exactly
`compute_gravity(w, 0.0)`. -/
noncomputable def compute_gravity1 (w : World) : World := compute_gravity w 0.0

/-! ## Symplectic leapfrog (integrators.cpp, `step_leapfrog`) -/

/-- A half kick: `v[i] += 0.5*dt * a[i]` for every body (both half kicks of
the kick-drift-kick loop body are this same loop). -/
def halfKick (w : World) (dt : ℝ) : World :=
  let half_dt := 0.5 * dt
  { w with
    vx := seqN w.count fun i => sget w.vx i + half_dt * sget w.ax i
    vy := seqN w.count fun i => sget w.vy i + half_dt * sget w.ay i
    vz := seqN w.count fun i => sget w.vz i + half_dt * sget w.az i }

/-- The full drift: `p[i] += dt * v[i]` using the (already half-kicked)
velocities. -/
def drift (w : World) (dt : ℝ) : World :=
  { w with
    px := seqN w.count fun i => sget w.px i + dt * sget w.vx i
    py := seqN w.count fun i => sget w.py i + dt * sget w.vy i
    pz := seqN w.count fun i => sget w.pz i + dt * sget w.vz i }

/-- `step_leapfrog`: half kick with the accelerations stored at entry, drift,
one gravity recomputation at the new positions, half kick with the new
accelerations, then `time += dt`. -/
noncomputable def step_leapfrog (w : World) (dt : ℝ) : World :=
  let w1 := halfKick w dt
  let w2 := drift w1 dt
  let w3 := compute_gravity1 w2
  let w4 := halfKick w3 dt
  { w4 with time := w4.time + dt }

/-! ## Fixed-step RK4 (integrators.cpp, `step_rk4`)

The source saves the pre-step state to scratch, evaluates the gravity solver
once per stage at intermediate states built from the saved state, and
combines the four stage derivatives with the 1/6·(k1+2k2+2k3+k4) weighting.
The scratch buffers hold copies of the first `count` elements of the entry
state (`save_state`), embedded here as `copyN`. -/

/-- A stage derivative of the coupled first-order system: position
derivatives (= velocities) and velocity derivatives (= accelerations),
as read off a world after a gravity evaluation. -/
structure Deriv where
  x : List ℝ
  y : List ℝ
  z : List ℝ
  vx : List ℝ
  vy : List ℝ
  vz : List ℝ

/-- Read the stage derivative `k` off the current world (the loops
`k*x[i] = w.vx[i]; …; k*vz[i] = w.az[i]` for `i < count`). -/
def readK (w : World) : Deriv :=
  ⟨copyN w.count w.vx, copyN w.count w.vy, copyN w.count w.vz,
   copyN w.count w.ax, copyN w.count w.ay, copyN w.count w.az⟩

/-- RK4 stage 1: gravity at the entry state (k1 is read off this world). -/
noncomputable def rk4G1 (w : World) : World := compute_gravity1 w

/-- RK4 stage-2 intermediate state `y + dt/2 * k1` (built from the saved
scratch copies of the pre-step state, `k1 = readK (rk4G1 w)`). -/
noncomputable def rk4S2 (w : World) (dt : ℝ) : World :=
  let n := w.count
  let k1 := readK (rk4G1 w)
  { rk4G1 w with
    px := seqN n fun i => sget (copyN n w.px) i + 0.5 * dt * sget k1.x i
    py := seqN n fun i => sget (copyN n w.py) i + 0.5 * dt * sget k1.y i
    pz := seqN n fun i => sget (copyN n w.pz) i + 0.5 * dt * sget k1.z i
    vx := seqN n fun i => sget (copyN n w.vx) i + 0.5 * dt * sget k1.vx i
    vy := seqN n fun i => sget (copyN n w.vy) i + 0.5 * dt * sget k1.vy i
    vz := seqN n fun i => sget (copyN n w.vz) i + 0.5 * dt * sget k1.vz i }

/-- RK4 stage 2: gravity at the stage-2 state. -/
noncomputable def rk4G2 (w : World) (dt : ℝ) : World := compute_gravity1 (rk4S2 w dt)

/-- RK4 stage-3 intermediate state `y + dt/2 * k2`. -/
noncomputable def rk4S3 (w : World) (dt : ℝ) : World :=
  let n := w.count
  let k2 := readK (rk4G2 w dt)
  { rk4G2 w dt with
    px := seqN n fun i => sget (copyN n w.px) i + 0.5 * dt * sget k2.x i
    py := seqN n fun i => sget (copyN n w.py) i + 0.5 * dt * sget k2.y i
    pz := seqN n fun i => sget (copyN n w.pz) i + 0.5 * dt * sget k2.z i
    vx := seqN n fun i => sget (copyN n w.vx) i + 0.5 * dt * sget k2.vx i
    vy := seqN n fun i => sget (copyN n w.vy) i + 0.5 * dt * sget k2.vy i
    vz := seqN n fun i => sget (copyN n w.vz) i + 0.5 * dt * sget k2.vz i }

/-- RK4 stage 3: gravity at the stage-3 state. -/
noncomputable def rk4G3 (w : World) (dt : ℝ) : World := compute_gravity1 (rk4S3 w dt)

/-- RK4 stage-4 intermediate state `y + dt * k3`. -/
noncomputable def rk4S4 (w : World) (dt : ℝ) : World :=
  let n := w.count
  let k3 := readK (rk4G3 w dt)
  { rk4G3 w dt with
    px := seqN n fun i => sget (copyN n w.px) i + dt * sget k3.x i
    py := seqN n fun i => sget (copyN n w.py) i + dt * sget k3.y i
    pz := seqN n fun i => sget (copyN n w.pz) i + dt * sget k3.z i
    vx := seqN n fun i => sget (copyN n w.vx) i + dt * sget k3.vx i
    vy := seqN n fun i => sget (copyN n w.vy) i + dt * sget k3.vy i
    vz := seqN n fun i => sget (copyN n w.vz) i + dt * sget k3.vz i }

/-- RK4 stage 4: gravity at the stage-4 state. -/
noncomputable def rk4G4 (w : World) (dt : ℝ) : World := compute_gravity1 (rk4S4 w dt)

/-- `step_rk4(World&, real dt)`: four gravity evaluations, then
`y_new = y + dt/6 * (k1 + 2*k2 + 2*k3 + k4)` and `time += dt`. -/
noncomputable def step_rk4 (w : World) (dt : ℝ) : World :=
  let n := w.count
  let k1 := readK (rk4G1 w)
  let k2 := readK (rk4G2 w dt)
  let k3 := readK (rk4G3 w dt)
  let k4 := readK (rk4G4 w dt)
  let dt6 := dt / 6.0
  { rk4G4 w dt with
    px := seqN n fun i => sget (copyN n w.px) i +
      dt6 * (sget k1.x i + 2.0 * sget k2.x i + 2.0 * sget k3.x i + sget k4.x i)
    py := seqN n fun i => sget (copyN n w.py) i +
      dt6 * (sget k1.y i + 2.0 * sget k2.y i + 2.0 * sget k3.y i + sget k4.y i)
    pz := seqN n fun i => sget (copyN n w.pz) i +
      dt6 * (sget k1.z i + 2.0 * sget k2.z i + 2.0 * sget k3.z i + sget k4.z i)
    vx := seqN n fun i => sget (copyN n w.vx) i +
      dt6 * (sget k1.vx i + 2.0 * sget k2.vx i + 2.0 * sget k3.vx i + sget k4.vx i)
    vy := seqN n fun i => sget (copyN n w.vy) i +
      dt6 * (sget k1.vy i + 2.0 * sget k2.vy i + 2.0 * sget k3.vy i + sget k4.vy i)
    vz := seqN n fun i => sget (copyN n w.vz) i +
      dt6 * (sget k1.vz i + 2.0 * sget k2.vz i + 2.0 * sget k3.vz i + sget k4.vz i)
    time := (rk4G4 w dt).time + dt }

/-! ## Adaptive Dormand–Prince 5(4) (integrators.cpp, `step_dopri54`)

The pipeline is split into one definition per stage block of the source so
that the theorems below can name intermediate states; each definition
recomputes its prefix (pure functions, so this is semantically identical to
the single-pass source). Scratch saving/restoring is `copyN` as in RK4. -/

namespace dopri

/-- Butcher node c2 of the Dormand–Prince tableau (declared in the source;
the derivative has no explicit time dependence, so nodes are unused). -/
noncomputable def c2 : ℝ := 1.0 / 5.0

/-- Butcher node c3 (unused by the derivative, as in the source). -/
noncomputable def c3 : ℝ := 3.0 / 10.0

/-- Butcher node c4 (unused by the derivative, as in the source). -/
noncomputable def c4 : ℝ := 4.0 / 5.0

/-- Butcher node c5 (unused by the derivative, as in the source). -/
noncomputable def c5 : ℝ := 8.0 / 9.0

/-- Stage coefficient a21. -/
noncomputable def a21 : ℝ := 1.0 / 5.0

/-- Stage coefficient a31. -/
noncomputable def a31 : ℝ := 3.0 / 40.0

/-- Stage coefficient a32. -/
noncomputable def a32 : ℝ := 9.0 / 40.0

/-- Stage coefficient a41. -/
noncomputable def a41 : ℝ := 44.0 / 45.0

/-- Stage coefficient a42. -/
noncomputable def a42 : ℝ := -56.0 / 15.0

/-- Stage coefficient a43. -/
noncomputable def a43 : ℝ := 32.0 / 9.0

/-- Stage coefficient a51. -/
noncomputable def a51 : ℝ := 19372.0 / 6561.0

/-- Stage coefficient a52. -/
noncomputable def a52 : ℝ := -25360.0 / 2187.0

/-- Stage coefficient a53. -/
noncomputable def a53 : ℝ := 64448.0 / 6561.0

/-- Stage coefficient a54. -/
noncomputable def a54 : ℝ := -212.0 / 729.0

/-- Stage coefficient a61. -/
noncomputable def a61 : ℝ := 9017.0 / 3168.0

/-- Stage coefficient a62. -/
noncomputable def a62 : ℝ := -355.0 / 33.0

/-- Stage coefficient a63. -/
noncomputable def a63 : ℝ := 46732.0 / 5247.0

/-- Stage coefficient a64. -/
noncomputable def a64 : ℝ := 49.0 / 176.0

/-- Stage coefficient a65. -/
noncomputable def a65 : ℝ := -5103.0 / 18656.0

/-- Stage coefficient a71 (stage 7 sits at the fifth-order solution point). -/
noncomputable def a71 : ℝ := 35.0 / 384.0

/-- Stage coefficient a73. -/
noncomputable def a73 : ℝ := 500.0 / 1113.0

/-- Stage coefficient a74. -/
noncomputable def a74 : ℝ := 125.0 / 192.0

/-- Stage coefficient a75. -/
noncomputable def a75 : ℝ := -2187.0 / 6784.0

/-- Stage coefficient a76. -/
noncomputable def a76 : ℝ := 11.0 / 84.0

/-- Fifth-order solution weight b1. -/
noncomputable def b1 : ℝ := 35.0 / 384.0

/-- Fifth-order solution weight b3. -/
noncomputable def b3 : ℝ := 500.0 / 1113.0

/-- Fifth-order solution weight b4. -/
noncomputable def b4 : ℝ := 125.0 / 192.0

/-- Fifth-order solution weight b5. -/
noncomputable def b5 : ℝ := -2187.0 / 6784.0

/-- Fifth-order solution weight b6. -/
noncomputable def b6 : ℝ := 11.0 / 84.0

/-- Error-estimation weight e1 (difference of the fifth- and fourth-order
weight rows, as hard-coded in the source). -/
noncomputable def e1 : ℝ := 71.0 / 57600.0

/-- Error-estimation weight e3. -/
noncomputable def e3 : ℝ := -71.0 / 16695.0

/-- Error-estimation weight e4. -/
noncomputable def e4 : ℝ := 71.0 / 1920.0

/-- Error-estimation weight e5. -/
noncomputable def e5 : ℝ := -17253.0 / 339200.0

/-- Error-estimation weight e6. -/
noncomputable def e6 : ℝ := 22.0 / 525.0

/-- Error-estimation weight e7. -/
noncomputable def e7 : ℝ := -1.0 / 40.0

end dopri

/-- Dopri stage 1: gravity at the entry state. -/
noncomputable def dopriG1 (w : World) : World := compute_gravity1 w

/-- Dopri stage-1 derivative k1. -/
noncomputable def dopriK1 (w : World) : Deriv := readK (dopriG1 w)

/-- Dopri stage-2 trial state. -/
noncomputable def dopriS2 (w : World) (dt : ℝ) : World :=
  let n := w.count
  let k1 := dopriK1 w
  { dopriG1 w with
    px := seqN n fun i => sget (copyN n w.px) i + dt * dopri.a21 * sget k1.x i
    py := seqN n fun i => sget (copyN n w.py) i + dt * dopri.a21 * sget k1.y i
    pz := seqN n fun i => sget (copyN n w.pz) i + dt * dopri.a21 * sget k1.z i
    vx := seqN n fun i => sget (copyN n w.vx) i + dt * dopri.a21 * sget k1.vx i
    vy := seqN n fun i => sget (copyN n w.vy) i + dt * dopri.a21 * sget k1.vy i
    vz := seqN n fun i => sget (copyN n w.vz) i + dt * dopri.a21 * sget k1.vz i }

/-- Dopri stage 2: gravity at the stage-2 trial state. -/
noncomputable def dopriG2 (w : World) (dt : ℝ) : World := compute_gravity1 (dopriS2 w dt)

/-- Dopri stage-2 derivative k2. -/
noncomputable def dopriK2 (w : World) (dt : ℝ) : Deriv := readK (dopriG2 w dt)

/-- Dopri stage-3 trial state. -/
noncomputable def dopriS3 (w : World) (dt : ℝ) : World :=
  let n := w.count
  let k1 := dopriK1 w
  let k2 := dopriK2 w dt
  { dopriG2 w dt with
    px := seqN n fun i => sget (copyN n w.px) i +
      dt * (dopri.a31 * sget k1.x i + dopri.a32 * sget k2.x i)
    py := seqN n fun i => sget (copyN n w.py) i +
      dt * (dopri.a31 * sget k1.y i + dopri.a32 * sget k2.y i)
    pz := seqN n fun i => sget (copyN n w.pz) i +
      dt * (dopri.a31 * sget k1.z i + dopri.a32 * sget k2.z i)
    vx := seqN n fun i => sget (copyN n w.vx) i +
      dt * (dopri.a31 * sget k1.vx i + dopri.a32 * sget k2.vx i)
    vy := seqN n fun i => sget (copyN n w.vy) i +
      dt * (dopri.a31 * sget k1.vy i + dopri.a32 * sget k2.vy i)
    vz := seqN n fun i => sget (copyN n w.vz) i +
      dt * (dopri.a31 * sget k1.vz i + dopri.a32 * sget k2.vz i) }

/-- Dopri stage 3: gravity at the stage-3 trial state. -/
noncomputable def dopriG3 (w : World) (dt : ℝ) : World := compute_gravity1 (dopriS3 w dt)

/-- Dopri stage-3 derivative k3. -/
noncomputable def dopriK3 (w : World) (dt : ℝ) : Deriv := readK (dopriG3 w dt)

/-- Dopri stage-4 trial state. -/
noncomputable def dopriS4 (w : World) (dt : ℝ) : World :=
  let n := w.count
  let k1 := dopriK1 w
  let k2 := dopriK2 w dt
  let k3 := dopriK3 w dt
  { dopriG3 w dt with
    px := seqN n fun i => sget (copyN n w.px) i +
      dt * (dopri.a41 * sget k1.x i + dopri.a42 * sget k2.x i + dopri.a43 * sget k3.x i)
    py := seqN n fun i => sget (copyN n w.py) i +
      dt * (dopri.a41 * sget k1.y i + dopri.a42 * sget k2.y i + dopri.a43 * sget k3.y i)
    pz := seqN n fun i => sget (copyN n w.pz) i +
      dt * (dopri.a41 * sget k1.z i + dopri.a42 * sget k2.z i + dopri.a43 * sget k3.z i)
    vx := seqN n fun i => sget (copyN n w.vx) i +
      dt * (dopri.a41 * sget k1.vx i + dopri.a42 * sget k2.vx i + dopri.a43 * sget k3.vx i)
    vy := seqN n fun i => sget (copyN n w.vy) i +
      dt * (dopri.a41 * sget k1.vy i + dopri.a42 * sget k2.vy i + dopri.a43 * sget k3.vy i)
    vz := seqN n fun i => sget (copyN n w.vz) i +
      dt * (dopri.a41 * sget k1.vz i + dopri.a42 * sget k2.vz i + dopri.a43 * sget k3.vz i) }

/-- Dopri stage 4: gravity at the stage-4 trial state. -/
noncomputable def dopriG4 (w : World) (dt : ℝ) : World := compute_gravity1 (dopriS4 w dt)

/-- Dopri stage-4 derivative k4. -/
noncomputable def dopriK4 (w : World) (dt : ℝ) : Deriv := readK (dopriG4 w dt)

/-- Dopri stage-5 trial state. -/
noncomputable def dopriS5 (w : World) (dt : ℝ) : World :=
  let n := w.count
  let k1 := dopriK1 w
  let k2 := dopriK2 w dt
  let k3 := dopriK3 w dt
  let k4 := dopriK4 w dt
  { dopriG4 w dt with
    px := seqN n fun i => sget (copyN n w.px) i +
      dt * (dopri.a51 * sget k1.x i + dopri.a52 * sget k2.x i + dopri.a53 * sget k3.x i +
        dopri.a54 * sget k4.x i)
    py := seqN n fun i => sget (copyN n w.py) i +
      dt * (dopri.a51 * sget k1.y i + dopri.a52 * sget k2.y i + dopri.a53 * sget k3.y i +
        dopri.a54 * sget k4.y i)
    pz := seqN n fun i => sget (copyN n w.pz) i +
      dt * (dopri.a51 * sget k1.z i + dopri.a52 * sget k2.z i + dopri.a53 * sget k3.z i +
        dopri.a54 * sget k4.z i)
    vx := seqN n fun i => sget (copyN n w.vx) i +
      dt * (dopri.a51 * sget k1.vx i + dopri.a52 * sget k2.vx i + dopri.a53 * sget k3.vx i +
        dopri.a54 * sget k4.vx i)
    vy := seqN n fun i => sget (copyN n w.vy) i +
      dt * (dopri.a51 * sget k1.vy i + dopri.a52 * sget k2.vy i + dopri.a53 * sget k3.vy i +
        dopri.a54 * sget k4.vy i)
    vz := seqN n fun i => sget (copyN n w.vz) i +
      dt * (dopri.a51 * sget k1.vz i + dopri.a52 * sget k2.vz i + dopri.a53 * sget k3.vz i +
        dopri.a54 * sget k4.vz i) }

/-- Dopri stage 5: gravity at the stage-5 trial state. -/
noncomputable def dopriG5 (w : World) (dt : ℝ) : World := compute_gravity1 (dopriS5 w dt)

/-- Dopri stage-5 derivative k5. -/
noncomputable def dopriK5 (w : World) (dt : ℝ) : Deriv := readK (dopriG5 w dt)

/-- Dopri stage-6 trial state. -/
noncomputable def dopriS6 (w : World) (dt : ℝ) : World :=
  let n := w.count
  let k1 := dopriK1 w
  let k2 := dopriK2 w dt
  let k3 := dopriK3 w dt
  let k4 := dopriK4 w dt
  let k5 := dopriK5 w dt
  { dopriG5 w dt with
    px := seqN n fun i => sget (copyN n w.px) i +
      dt * (dopri.a61 * sget k1.x i + dopri.a62 * sget k2.x i + dopri.a63 * sget k3.x i +
        dopri.a64 * sget k4.x i + dopri.a65 * sget k5.x i)
    py := seqN n fun i => sget (copyN n w.py) i +
      dt * (dopri.a61 * sget k1.y i + dopri.a62 * sget k2.y i + dopri.a63 * sget k3.y i +
        dopri.a64 * sget k4.y i + dopri.a65 * sget k5.y i)
    pz := seqN n fun i => sget (copyN n w.pz) i +
      dt * (dopri.a61 * sget k1.z i + dopri.a62 * sget k2.z i + dopri.a63 * sget k3.z i +
        dopri.a64 * sget k4.z i + dopri.a65 * sget k5.z i)
    vx := seqN n fun i => sget (copyN n w.vx) i +
      dt * (dopri.a61 * sget k1.vx i + dopri.a62 * sget k2.vx i + dopri.a63 * sget k3.vx i +
        dopri.a64 * sget k4.vx i + dopri.a65 * sget k5.vx i)
    vy := seqN n fun i => sget (copyN n w.vy) i +
      dt * (dopri.a61 * sget k1.vy i + dopri.a62 * sget k2.vy i + dopri.a63 * sget k3.vy i +
        dopri.a64 * sget k4.vy i + dopri.a65 * sget k5.vy i)
    vz := seqN n fun i => sget (copyN n w.vz) i +
      dt * (dopri.a61 * sget k1.vz i + dopri.a62 * sget k2.vz i + dopri.a63 * sget k3.vz i +
        dopri.a64 * sget k4.vz i + dopri.a65 * sget k5.vz i) }

/-- Dopri stage 6: gravity at the stage-6 trial state. -/
noncomputable def dopriG6 (w : World) (dt : ℝ) : World := compute_gravity1 (dopriS6 w dt)

/-- Dopri stage-6 derivative k6. -/
noncomputable def dopriK6 (w : World) (dt : ℝ) : Deriv := readK (dopriG6 w dt)

/-- Dopri stage-7 trial state: the fifth-order solution point (FSAL stage). -/
noncomputable def dopriS7 (w : World) (dt : ℝ) : World :=
  let n := w.count
  let k1 := dopriK1 w
  let k3 := dopriK3 w dt
  let k4 := dopriK4 w dt
  let k5 := dopriK5 w dt
  let k6 := dopriK6 w dt
  { dopriG6 w dt with
    px := seqN n fun i => sget (copyN n w.px) i +
      dt * (dopri.a71 * sget k1.x i + dopri.a73 * sget k3.x i + dopri.a74 * sget k4.x i +
        dopri.a75 * sget k5.x i + dopri.a76 * sget k6.x i)
    py := seqN n fun i => sget (copyN n w.py) i +
      dt * (dopri.a71 * sget k1.y i + dopri.a73 * sget k3.y i + dopri.a74 * sget k4.y i +
        dopri.a75 * sget k5.y i + dopri.a76 * sget k6.y i)
    pz := seqN n fun i => sget (copyN n w.pz) i +
      dt * (dopri.a71 * sget k1.z i + dopri.a73 * sget k3.z i + dopri.a74 * sget k4.z i +
        dopri.a75 * sget k5.z i + dopri.a76 * sget k6.z i)
    vx := seqN n fun i => sget (copyN n w.vx) i +
      dt * (dopri.a71 * sget k1.vx i + dopri.a73 * sget k3.vx i + dopri.a74 * sget k4.vx i +
        dopri.a75 * sget k5.vx i + dopri.a76 * sget k6.vx i)
    vy := seqN n fun i => sget (copyN n w.vy) i +
      dt * (dopri.a71 * sget k1.vy i + dopri.a73 * sget k3.vy i + dopri.a74 * sget k4.vy i +
        dopri.a75 * sget k5.vy i + dopri.a76 * sget k6.vy i)
    vz := seqN n fun i => sget (copyN n w.vz) i +
      dt * (dopri.a71 * sget k1.vz i + dopri.a73 * sget k3.vz i + dopri.a74 * sget k4.vz i +
        dopri.a75 * sget k5.vz i + dopri.a76 * sget k6.vz i) }

/-- Dopri stage 7: gravity at the stage-7 trial state (the world on which the
error estimate's scale factors are read, and the world committed on accept). -/
noncomputable def dopriG7 (w : World) (dt : ℝ) : World := compute_gravity1 (dopriS7 w dt)

/-- Dopri stage-7 derivative k7. -/
noncomputable def dopriK7 (w : World) (dt : ℝ) : Deriv := readK (dopriG7 w dt)

/-- The error-estimate loop of `step_dopri54`: per body, the dt-scaled
absolute fourth/fifth-order differences of the three position components are
summed and divided by `max(1, |position|)` (likewise velocities with
`max(1, |velocity|)`), and `max_err` is the running maximum over all bodies
and both groups, starting from `0.0`. -/
noncomputable def dopriErr (w : World) (dt : ℝ) : ℝ :=
  let k1 := dopriK1 w
  let k3 := dopriK3 w dt
  let k4 := dopriK4 w dt
  let k5 := dopriK5 w dt
  let k6 := dopriK6 w dt
  let k7 := dopriK7 w dt
  let g7 := dopriG7 w dt
  (List.range w.count).foldl
    (fun max_err i =>
      let err_px := dt * |dopri.e1 * sget k1.x i + dopri.e3 * sget k3.x i +
        dopri.e4 * sget k4.x i + dopri.e5 * sget k5.x i + dopri.e6 * sget k6.x i +
        dopri.e7 * sget k7.x i|
      let err_py := dt * |dopri.e1 * sget k1.y i + dopri.e3 * sget k3.y i +
        dopri.e4 * sget k4.y i + dopri.e5 * sget k5.y i + dopri.e6 * sget k6.y i +
        dopri.e7 * sget k7.y i|
      let err_pz := dt * |dopri.e1 * sget k1.z i + dopri.e3 * sget k3.z i +
        dopri.e4 * sget k4.z i + dopri.e5 * sget k5.z i + dopri.e6 * sget k6.z i +
        dopri.e7 * sget k7.z i|
      let err_vx := dt * |dopri.e1 * sget k1.vx i + dopri.e3 * sget k3.vx i +
        dopri.e4 * sget k4.vx i + dopri.e5 * sget k5.vx i + dopri.e6 * sget k6.vx i +
        dopri.e7 * sget k7.vx i|
      let err_vy := dt * |dopri.e1 * sget k1.vy i + dopri.e3 * sget k3.vy i +
        dopri.e4 * sget k4.vy i + dopri.e5 * sget k5.vy i + dopri.e6 * sget k6.vy i +
        dopri.e7 * sget k7.vy i|
      let err_vz := dt * |dopri.e1 * sget k1.vz i + dopri.e3 * sget k3.vz i +
        dopri.e4 * sget k4.vz i + dopri.e5 * sget k5.vz i + dopri.e6 * sget k6.vz i +
        dopri.e7 * sget k7.vz i|
      let scale_p := max 1.0 (Real.sqrt (sget g7.px i * sget g7.px i +
        sget g7.py i * sget g7.py i + sget g7.pz i * sget g7.pz i))
      let scale_v := max 1.0 (Real.sqrt (sget g7.vx i * sget g7.vx i +
        sget g7.vy i * sget g7.vy i + sget g7.vz i * sget g7.vz i))
      max (max max_err ((err_px + err_py + err_pz) / scale_p))
        ((err_vx + err_vy + err_vz) / scale_v))
    0.0

/-- `step_dopri54(World&, real dt, real tol)`: run the seven stages, compute
the error estimate and step-size suggestion, then either reject (restore the
saved positions/velocities, leave time unchanged, report zero time consumed)
or accept (keep the fifth-order stage-7 state, advance time by dt). -/
noncomputable def step_dopri54 (w : World) (dt : ℝ) (tol : ℝ) : World × StepResult :=
  let n := w.count
  let g7 := dopriG7 w dt
  let max_err := dopriErr w dt
  -- step size control
  let safety : ℝ := 0.9
  let min_scale : ℝ := 0.2
  let max_scale : ℝ := 5.0
  let scale := max min_scale (min max_scale (safety * Real.rpow (tol / (max_err + 1e-30)) 0.2))
  let dt_next := dt * scale
  if max_err > tol then
    ({ g7 with
       px := copyN n w.px, py := copyN n w.py, pz := copyN n w.pz
       vx := copyN n w.vx, vy := copyN n w.vy, vz := copyN n w.vz },
     ⟨0.0, dt_next, max_err⟩)
  else
    ({ g7 with time := g7.time + dt }, ⟨dt, dt_next, max_err⟩)

/-! ## Specification-side definitions

These definitions are modelled from the spec's words (not from the source):
they serve as the reference points of the refinement theorems below. -/

namespace dopri

/-- Modelled from the spec: the fifth-order weight of stage 7 in the standard
Dormand–Prince tableau is zero (implicit in the source, where k7 does not
appear in the committed solution). -/
noncomputable def b7 : ℝ := 0.0

/-- Modelled from the spec ("the fixed Butcher coefficients … for the fifth-
and fourth-order solution weights"): standard Dormand–Prince fourth-order
weight b̂1; these weights do not appear in the source, which hard-codes only
the differences e1…e7. -/
noncomputable def bh1 : ℝ := 5179.0 / 57600.0

/-- Modelled from the spec: standard Dormand–Prince fourth-order weight b̂3. -/
noncomputable def bh3 : ℝ := 7571.0 / 16695.0

/-- Modelled from the spec: standard Dormand–Prince fourth-order weight b̂4. -/
noncomputable def bh4 : ℝ := 393.0 / 640.0

/-- Modelled from the spec: standard Dormand–Prince fourth-order weight b̂5. -/
noncomputable def bh5 : ℝ := -92097.0 / 339200.0

/-- Modelled from the spec: standard Dormand–Prince fourth-order weight b̂6. -/
noncomputable def bh6 : ℝ := 187.0 / 2100.0

/-- Modelled from the spec: standard Dormand–Prince fourth-order weight b̂7. -/
noncomputable def bh7 : ℝ := 1.0 / 40.0

end dopri

/-- Modelled from the spec: the first half-step intermediate state of the
classical RK4 scheme, `y + dt/2 * k1` with `k1` the gravity-solver derivative
at the pre-step state. -/
noncomputable def rk4ClassicalS2 (w : World) (dt : ℝ) : World :=
  { w with
    px := seqN w.count fun i => sget w.px i + dt / 2 * sget (compute_gravity1 w).vx i
    py := seqN w.count fun i => sget w.py i + dt / 2 * sget (compute_gravity1 w).vy i
    pz := seqN w.count fun i => sget w.pz i + dt / 2 * sget (compute_gravity1 w).vz i
    vx := seqN w.count fun i => sget w.vx i + dt / 2 * sget (compute_gravity1 w).ax i
    vy := seqN w.count fun i => sget w.vy i + dt / 2 * sget (compute_gravity1 w).ay i
    vz := seqN w.count fun i => sget w.vz i + dt / 2 * sget (compute_gravity1 w).az i }

/-- Modelled from the spec: the second half-step intermediate state,
`y + dt/2 * k2`. -/
noncomputable def rk4ClassicalS3 (w : World) (dt : ℝ) : World :=
  { w with
    px := seqN w.count fun i => sget w.px i +
      dt / 2 * sget (compute_gravity1 (rk4ClassicalS2 w dt)).vx i
    py := seqN w.count fun i => sget w.py i +
      dt / 2 * sget (compute_gravity1 (rk4ClassicalS2 w dt)).vy i
    pz := seqN w.count fun i => sget w.pz i +
      dt / 2 * sget (compute_gravity1 (rk4ClassicalS2 w dt)).vz i
    vx := seqN w.count fun i => sget w.vx i +
      dt / 2 * sget (compute_gravity1 (rk4ClassicalS2 w dt)).ax i
    vy := seqN w.count fun i => sget w.vy i +
      dt / 2 * sget (compute_gravity1 (rk4ClassicalS2 w dt)).ay i
    vz := seqN w.count fun i => sget w.vz i +
      dt / 2 * sget (compute_gravity1 (rk4ClassicalS2 w dt)).az i }

/-- Modelled from the spec: the full-step intermediate state, `y + dt * k3`. -/
noncomputable def rk4ClassicalS4 (w : World) (dt : ℝ) : World :=
  { w with
    px := seqN w.count fun i => sget w.px i +
      dt * sget (compute_gravity1 (rk4ClassicalS3 w dt)).vx i
    py := seqN w.count fun i => sget w.py i +
      dt * sget (compute_gravity1 (rk4ClassicalS3 w dt)).vy i
    pz := seqN w.count fun i => sget w.pz i +
      dt * sget (compute_gravity1 (rk4ClassicalS3 w dt)).vz i
    vx := seqN w.count fun i => sget w.vx i +
      dt * sget (compute_gravity1 (rk4ClassicalS3 w dt)).ax i
    vy := seqN w.count fun i => sget w.vy i +
      dt * sget (compute_gravity1 (rk4ClassicalS3 w dt)).ay i
    vz := seqN w.count fun i => sget w.vz i +
      dt * sget (compute_gravity1 (rk4ClassicalS3 w dt)).az i }

/-- Modelled from the spec: the classical four-stage Runge–Kutta step on the
coupled first-order system (position′ = velocity, velocity′ = acceleration):
`k1…k4` are the gravity-solver derivatives at the pre-step state, at the two
half-step intermediate states and at the full-step intermediate state, and
the new state is the pre-step state plus `dt/6·(k1 + 2·k2 + 2·k3 + k4)`,
with time advanced by exactly dt. -/
noncomputable def rk4Classical (w : World) (dt : ℝ) : World :=
  let g1 := compute_gravity1 w
  let g2 := compute_gravity1 (rk4ClassicalS2 w dt)
  let g3 := compute_gravity1 (rk4ClassicalS3 w dt)
  let g4 := compute_gravity1 (rk4ClassicalS4 w dt)
  { g4 with
    px := seqN w.count fun i => sget w.px i +
      dt / 6 * (sget g1.vx i + 2 * sget g2.vx i + 2 * sget g3.vx i + sget g4.vx i)
    py := seqN w.count fun i => sget w.py i +
      dt / 6 * (sget g1.vy i + 2 * sget g2.vy i + 2 * sget g3.vy i + sget g4.vy i)
    pz := seqN w.count fun i => sget w.pz i +
      dt / 6 * (sget g1.vz i + 2 * sget g2.vz i + 2 * sget g3.vz i + sget g4.vz i)
    vx := seqN w.count fun i => sget w.vx i +
      dt / 6 * (sget g1.ax i + 2 * sget g2.ax i + 2 * sget g3.ax i + sget g4.ax i)
    vy := seqN w.count fun i => sget w.vy i +
      dt / 6 * (sget g1.ay i + 2 * sget g2.ay i + 2 * sget g3.ay i + sget g4.ay i)
    vz := seqN w.count fun i => sget w.vz i +
      dt / 6 * (sget g1.az i + 2 * sget g2.az i + 2 * sget g3.az i + sget g4.az i)
    time := w.time + dt }

/-- The Euclidean magnitude of body `i`'s acceleration (diagnostic used to
state the softening claim). -/
noncomputable def accelMag (w : World) (i : ℕ) : ℝ :=
  Real.sqrt (sget w.ax i ^ 2 + sget w.ay i ^ 2 + sget w.az i ^ 2)

/-- The pairwise force-direction vector of the inner gravity loop,
`f = G * Δp / (dist2 * sqrt dist2)` with `dist2 = |Δp|² + s²`: body `i`
receives `+f*mⱼ`, body `j` receives `−f*mᵢ`. -/
noncomputable def pairAccel (p0 p1 : Vec3) (s : ℝ) : ℝ × ℝ × ℝ :=
  let dx := p1.x - p0.x
  let dy := p1.y - p0.y
  let dz := p1.z - p0.z
  let dist2 := dx * dx + dy * dy + dz * dz + s * s
  let inv_dist3 := 1.0 / (dist2 * Real.sqrt dist2)
  (constants.G * dx * inv_dist3, constants.G * dy * inv_dist3, constants.G * dz * inv_dist3)

/-- A sequence of `add_body` calls, collecting the returned indices. -/
def addSeq : World → List (Vec3 × Vec3 × ℝ) → World × List ℕ
  | w, [] => (w, [])
  | w, a :: rest =>
    let r := World.add_body w a.1 a.2.1 a.2.2
    let q := addSeq r.1 rest
    (q.1, r.2 :: q.2)

/-- A two-body world built by two `add_body` calls on the empty world. -/
def twoBody (p0 v0 : Vec3) (m0 : ℝ) (p1 v1 : Vec3) (m1 : ℝ) : World :=
  (World.add_body (World.add_body World.emptyWorld p0 v0 m0).1 p1 v1 m1).1

/-- A one-body world: a unit mass at the origin, at rest (accelerations as
initialized by `add_body`). -/
def oneBody : World :=
  (World.add_body World.emptyWorld ⟨0, 0, 0⟩ ⟨0, 0, 0⟩ 1).1

/-- A one-body world with the body static at the origin and arbitrary
acceleration scratch contents `a b c`, mass `m`, time `t`. -/
def staticW (a b c m t : ℝ) : World :=
  { px := [0], py := [0], pz := [0], vx := [0], vy := [0], vz := [0]
    ax := [a], ay := [b], az := [c], mass := [m], count := 1, time := t }

/-! ## Basic lemmas about the embedding primitives -/

@[simp] theorem seqN_length (n : ℕ) (f : ℕ → ℝ) : (seqN n f).length = n := by
  simp [seqN]

@[simp] theorem copyN_length (n : ℕ) (l : List ℝ) : (copyN n l).length = n := by
  simp [copyN]

theorem sget_seqN {n i : ℕ} (f : ℕ → ℝ) (h : i < n) : sget (seqN n f) i = f i := by
  simp [seqN, sget, List.getD, List.getElem?_map, List.getElem?_range h]

theorem sget_of_lt {l : List ℝ} {i : ℕ} (h : i < l.length) :
    sget l i = l[i] := by
  simp [sget, List.getD, List.getElem?_eq_getElem h]

/-- A length-`n` copy of a length-`n` list is the list itself. -/
theorem copyN_eq_self {l : List ℝ} {n : ℕ} (h : l.length = n) : copyN n l = l := by
  subst h
  apply List.ext_getElem (by simp)
  intro i h1 h2
  rw [← sget_of_lt h1, ← sget_of_lt h2, copyN, sget_seqN _ h2]

theorem sget_copyN {n i : ℕ} (l : List ℝ) (h : i < n) :
    sget (copyN n l) i = sget l i := sget_seqN (sget l) h

theorem seqN_congr {n : ℕ} {f g : ℕ → ℝ} (h : ∀ i, i < n → f i = g i) :
    seqN n f = seqN n g := by
  unfold seqN
  apply List.map_congr_left
  intro i hi
  exact h i (List.mem_range.mp hi)

theorem sget_replicate (n : ℕ) (i : ℕ) : sget (List.replicate n (0 : ℝ)) i = 0 := by
  simp [sget, List.getD, List.getElem?_replicate]
  split <;> simp

/-- An invariant preserved by every step of a fold holds of the result. -/
theorem foldl_invariant {α β : Type} (P : α → Prop) (f : α → β → α) (l : List β)
    (a : α) (h0 : P a) (hstep : ∀ st b, P st → P (f st b)) : P (l.foldl f a) := by
  induction l generalizing a with
  | nil => exact h0
  | cons x xs ih => exact ih _ (hstep _ _ h0)

theorem map_const_zero_of_length_eq {l₁ l₂ : List ℝ} (h : l₁.length = l₂.length) :
    (l₁.map fun _ => (0.0 : ℝ)) = l₂.map fun _ => (0.0 : ℝ) := by
  rw [List.map_const', List.map_const', h]

/-! ## Gravity solver lemmas -/

@[simp] theorem compute_gravity_px (w : World) (s : ℝ) : (compute_gravity w s).px = w.px := rfl

@[simp] theorem compute_gravity_py (w : World) (s : ℝ) : (compute_gravity w s).py = w.py := rfl

@[simp] theorem compute_gravity_pz (w : World) (s : ℝ) : (compute_gravity w s).pz = w.pz := rfl

@[simp] theorem compute_gravity_vx (w : World) (s : ℝ) : (compute_gravity w s).vx = w.vx := rfl

@[simp] theorem compute_gravity_vy (w : World) (s : ℝ) : (compute_gravity w s).vy = w.vy := rfl

@[simp] theorem compute_gravity_vz (w : World) (s : ℝ) : (compute_gravity w s).vz = w.vz := rfl

@[simp] theorem compute_gravity_mass (w : World) (s : ℝ) :
    (compute_gravity w s).mass = w.mass := rfl

@[simp] theorem compute_gravity_count (w : World) (s : ℝ) :
    (compute_gravity w s).count = w.count := rfl

@[simp] theorem compute_gravity_time (w : World) (s : ℝ) :
    (compute_gravity w s).time = w.time := rfl

theorem gravInner_congr {w₁ w₂ : World} (hpx : w₁.px = w₂.px) (hpy : w₁.py = w₂.py)
    (hpz : w₁.pz = w₂.pz) (hm : w₁.mass = w₂.mass) (e : ℝ) (i : ℕ) :
    gravInner w₁ e i = gravInner w₂ e i := by
  funext st j
  simp only [gravInner, hpx, hpy, hpz, hm]

theorem gravOuter_congr {w₁ w₂ : World} (hpx : w₁.px = w₂.px) (hpy : w₁.py = w₂.py)
    (hpz : w₁.pz = w₂.pz) (hm : w₁.mass = w₂.mass) (hc : w₁.count = w₂.count) (e : ℝ) :
    gravOuter w₁ e = gravOuter w₂ e := by
  funext acc i
  simp only [gravOuter, gravInner_congr hpx hpy hpz hm, hc]

/-- The gravity output depends only on positions, masses, body count and the
lengths of the acceleration buffers (which are fully overwritten). -/
theorem compute_gravity_congr {w₁ w₂ : World} (hpx : w₁.px = w₂.px) (hpy : w₁.py = w₂.py)
    (hpz : w₁.pz = w₂.pz) (hm : w₁.mass = w₂.mass) (hc : w₁.count = w₂.count)
    (hax : w₁.ax.length = w₂.ax.length) (hay : w₁.ay.length = w₂.ay.length)
    (haz : w₁.az.length = w₂.az.length) (s : ℝ) :
    (compute_gravity w₁ s).ax = (compute_gravity w₂ s).ax ∧
    (compute_gravity w₁ s).ay = (compute_gravity w₂ s).ay ∧
    (compute_gravity w₁ s).az = (compute_gravity w₂ s).az := by
  unfold compute_gravity
  simp only [map_const_zero_of_length_eq hax, map_const_zero_of_length_eq hay,
    map_const_zero_of_length_eq haz, gravOuter_congr hpx hpy hpz hm hc, hc]
  exact ⟨trivial, trivial, trivial⟩

theorem compute_gravity_lengths (w : World) (s : ℝ) :
    (compute_gravity w s).ax.length = w.ax.length ∧
    (compute_gravity w s).ay.length = w.ay.length ∧
    (compute_gravity w s).az.length = w.az.length := by
  unfold compute_gravity
  simp only
  refine foldl_invariant
    (fun acc : List ℝ × List ℝ × List ℝ =>
      acc.1.length = w.ax.length ∧ acc.2.1.length = w.ay.length ∧
        acc.2.2.length = w.az.length)
    (gravOuter w (s * s)) (List.range w.count) _ (by simp) ?_
  intro acc i hacc
  unfold gravOuter
  simp only [List.length_set]
  refine foldl_invariant
    (fun st : GravAcc =>
      st.ax.length = w.ax.length ∧ st.ay.length = w.ay.length ∧
        st.az.length = w.az.length)
    (gravInner w (s * s) i) _ _ hacc ?_
  intro st j hst
  simpa only [gravInner, List.length_set] using hst

theorem Wf_compute_gravity {w : World} (h : w.Wf) (s : ℝ) : (compute_gravity w s).Wf := by
  obtain ⟨h1, h2, h3⟩ := compute_gravity_lengths w s
  exact ⟨h.hpx, h.hpy, h.hpz, h.hvx, h.hvy, h.hvz,
    h1.trans h.hax, h2.trans h.hay, h3.trans h.haz, h.hmass⟩

theorem Wf_compute_gravity1 {w : World} (h : w.Wf) : (compute_gravity1 w).Wf :=
  Wf_compute_gravity h 0.0

/-- A record update replacing the six position/velocity sequences by
`seqN count …` sequences preserves the invariant. -/
theorem Wf_posvel_update {g : World} (h : g.Wf) (f1 f2 f3 f4 f5 f6 : ℕ → ℝ) :
    ({ g with px := seqN g.count f1, py := seqN g.count f2, pz := seqN g.count f3,
              vx := seqN g.count f4, vy := seqN g.count f5,
              vz := seqN g.count f6 } : World).Wf := by
  exact ⟨by simp, by simp, by simp, by simp, by simp, by simp,
    h.hax, h.hay, h.haz, h.hmass⟩

/-! ## Invariant preservation -/

theorem Wf_time_update {g : World} (h : g.Wf) (t : ℝ) : ({ g with time := t } : World).Wf :=
  ⟨h.hpx, h.hpy, h.hpz, h.hvx, h.hvy, h.hvz, h.hax, h.hay, h.haz, h.hmass⟩

@[simp] theorem rk4G4_count (w : World) (dt : ℝ) : (rk4G4 w dt).count = w.count := rfl

@[simp] theorem rk4G4_time (w : World) (dt : ℝ) : (rk4G4 w dt).time = w.time := rfl

@[simp] theorem dopriG7_count (w : World) (dt : ℝ) : (dopriG7 w dt).count = w.count := rfl

@[simp] theorem dopriG7_time (w : World) (dt : ℝ) : (dopriG7 w dt).time = w.time := rfl

theorem Wf_halfKick {w : World} (h : w.Wf) (dt : ℝ) : (halfKick w dt).Wf := by
  exact ⟨h.hpx, h.hpy, h.hpz, by simp [halfKick], by simp [halfKick], by simp [halfKick],
    h.hax, h.hay, h.haz, h.hmass⟩

theorem Wf_drift {w : World} (h : w.Wf) (dt : ℝ) : (drift w dt).Wf := by
  exact ⟨by simp [drift], by simp [drift], by simp [drift], h.hvx, h.hvy, h.hvz,
    h.hax, h.hay, h.haz, h.hmass⟩

theorem Wf_step_leapfrog {w : World} (h : w.Wf) (dt : ℝ) : (step_leapfrog w dt).Wf := by
  unfold step_leapfrog
  exact Wf_time_update
    (Wf_halfKick (Wf_compute_gravity1 (Wf_drift (Wf_halfKick h dt) dt)) dt) _

theorem Wf_rk4G1 {w : World} (h : w.Wf) : (rk4G1 w).Wf := Wf_compute_gravity1 h

theorem Wf_rk4S2 {w : World} (h : w.Wf) (dt : ℝ) : (rk4S2 w dt).Wf := by
  unfold rk4S2
  exact Wf_posvel_update (Wf_rk4G1 h) _ _ _ _ _ _

theorem Wf_rk4G2 {w : World} (h : w.Wf) (dt : ℝ) : (rk4G2 w dt).Wf :=
  Wf_compute_gravity1 (Wf_rk4S2 h dt)

theorem Wf_rk4S3 {w : World} (h : w.Wf) (dt : ℝ) : (rk4S3 w dt).Wf := by
  unfold rk4S3
  exact Wf_posvel_update (Wf_rk4G2 h dt) _ _ _ _ _ _

theorem Wf_rk4G3 {w : World} (h : w.Wf) (dt : ℝ) : (rk4G3 w dt).Wf :=
  Wf_compute_gravity1 (Wf_rk4S3 h dt)

theorem Wf_rk4S4 {w : World} (h : w.Wf) (dt : ℝ) : (rk4S4 w dt).Wf := by
  unfold rk4S4
  exact Wf_posvel_update (Wf_rk4G3 h dt) _ _ _ _ _ _

theorem Wf_rk4G4 {w : World} (h : w.Wf) (dt : ℝ) : (rk4G4 w dt).Wf :=
  Wf_compute_gravity1 (Wf_rk4S4 h dt)

theorem Wf_step_rk4 {w : World} (h : w.Wf) (dt : ℝ) : (step_rk4 w dt).Wf := by
  have h4 := Wf_rk4G4 h dt
  unfold step_rk4
  exact ⟨by simp, by simp, by simp, by simp, by simp, by simp,
    h4.hax, h4.hay, h4.haz, h4.hmass⟩

theorem Wf_dopriG1 {w : World} (h : w.Wf) : (dopriG1 w).Wf := Wf_compute_gravity1 h

theorem Wf_dopriS2 {w : World} (h : w.Wf) (dt : ℝ) : (dopriS2 w dt).Wf := by
  unfold dopriS2
  exact Wf_posvel_update (Wf_dopriG1 h) _ _ _ _ _ _

theorem Wf_dopriG2 {w : World} (h : w.Wf) (dt : ℝ) : (dopriG2 w dt).Wf :=
  Wf_compute_gravity1 (Wf_dopriS2 h dt)

theorem Wf_dopriS3 {w : World} (h : w.Wf) (dt : ℝ) : (dopriS3 w dt).Wf := by
  unfold dopriS3
  exact Wf_posvel_update (Wf_dopriG2 h dt) _ _ _ _ _ _

theorem Wf_dopriG3 {w : World} (h : w.Wf) (dt : ℝ) : (dopriG3 w dt).Wf :=
  Wf_compute_gravity1 (Wf_dopriS3 h dt)

theorem Wf_dopriS4 {w : World} (h : w.Wf) (dt : ℝ) : (dopriS4 w dt).Wf := by
  unfold dopriS4
  exact Wf_posvel_update (Wf_dopriG3 h dt) _ _ _ _ _ _

theorem Wf_dopriG4 {w : World} (h : w.Wf) (dt : ℝ) : (dopriG4 w dt).Wf :=
  Wf_compute_gravity1 (Wf_dopriS4 h dt)

theorem Wf_dopriS5 {w : World} (h : w.Wf) (dt : ℝ) : (dopriS5 w dt).Wf := by
  unfold dopriS5
  exact Wf_posvel_update (Wf_dopriG4 h dt) _ _ _ _ _ _

theorem Wf_dopriG5 {w : World} (h : w.Wf) (dt : ℝ) : (dopriG5 w dt).Wf :=
  Wf_compute_gravity1 (Wf_dopriS5 h dt)

theorem Wf_dopriS6 {w : World} (h : w.Wf) (dt : ℝ) : (dopriS6 w dt).Wf := by
  unfold dopriS6
  exact Wf_posvel_update (Wf_dopriG5 h dt) _ _ _ _ _ _

theorem Wf_dopriG6 {w : World} (h : w.Wf) (dt : ℝ) : (dopriG6 w dt).Wf :=
  Wf_compute_gravity1 (Wf_dopriS6 h dt)

theorem Wf_dopriS7 {w : World} (h : w.Wf) (dt : ℝ) : (dopriS7 w dt).Wf := by
  unfold dopriS7
  exact Wf_posvel_update (Wf_dopriG6 h dt) _ _ _ _ _ _

theorem Wf_dopriG7 {w : World} (h : w.Wf) (dt : ℝ) : (dopriG7 w dt).Wf :=
  Wf_compute_gravity1 (Wf_dopriS7 h dt)

theorem Wf_step_dopri54 {w : World} (h : w.Wf) (dt tol : ℝ) :
    (step_dopri54 w dt tol).1.Wf := by
  have h7 := Wf_dopriG7 h dt
  unfold step_dopri54
  simp only
  split
  · exact ⟨by simp, by simp, by simp, by simp, by simp, by simp,
      h7.hax, h7.hay, h7.haz, h7.hmass⟩
  · exact Wf_time_update h7 _

/-! ## Concrete worlds used by the witnesses -/

theorem oneBody_Wf : oneBody.Wf := ⟨rfl, rfl, rfl, rfl, rfl, rfl, rfl, rfl, rfl, rfl⟩

/-! ## Claim C6 -/

/-- C6: for every world and every softening value, `compute_gravity` fully
overwrites every body's acceleration (zeroing first, then accumulating — so
the result is independent of the prior contents of the acceleration buffers,
given their lengths) and leaves every position component, velocity component,
mass, the body count, and the elapsed time unchanged. -/
theorem compute_gravity_overwrite_frame (w : World) (s : ℝ) (a b c : List ℝ)
    (ha : a.length = w.ax.length) (hb : b.length = w.ay.length)
    (hc : c.length = w.az.length) :
    (compute_gravity w s).px = w.px ∧ (compute_gravity w s).py = w.py ∧
    (compute_gravity w s).pz = w.pz ∧ (compute_gravity w s).vx = w.vx ∧
    (compute_gravity w s).vy = w.vy ∧ (compute_gravity w s).vz = w.vz ∧
    (compute_gravity w s).mass = w.mass ∧ (compute_gravity w s).count = w.count ∧
    (compute_gravity w s).time = w.time ∧
    compute_gravity { w with ax := a, ay := b, az := c } s = compute_gravity w s := by
  refine ⟨rfl, rfl, rfl, rfl, rfl, rfl, rfl, rfl, rfl, ?_⟩
  obtain ⟨e1, e2, e3⟩ :=
    @compute_gravity_congr { w with ax := a, ay := b, az := c } w
      rfl rfl rfl rfl rfl ha hb hc s
  exact World.ext rfl rfl rfl rfl rfl rfl e1 e2 e3 rfl rfl rfl

/-- Witness for C6 at a concrete input: a one-body world with acceleration
buffers pre-filled with the value 5. -/
theorem compute_gravity_overwrite_frame_witness :
    ([(5 : ℝ)].length = oneBody.ax.length ∧ [(5 : ℝ)].length = oneBody.ay.length ∧
      [(5 : ℝ)].length = oneBody.az.length) ∧
    compute_gravity { oneBody with ax := [5], ay := [5], az := [5] } 0 =
      compute_gravity oneBody 0 :=
  ⟨⟨rfl, rfl, rfl⟩,
    (compute_gravity_overwrite_frame oneBody 0 [5] [5] [5] rfl rfl rfl).2.2.2.2.2.2.2.2.2⟩

/-! ## Claim C9 -/

/-- C9: every public mutating operation — `reserve`, `add_body`, `clear`,
`compute_gravity` with or without softening, `step_rk4`, `step_dopri54`
(either branch, in particular a rejected step), and `step_leapfrog` —
preserves the invariant that all ten parallel sequences have length equal to
the body count. (The energy and angular-momentum queries are `const` in the
source and are embedded as pure functions, so they cannot disturb the
store.) -/
theorem public_ops_preserve_invariant :
    (∀ w n, w.Wf → (World.reserve w n).Wf) ∧
    (∀ w p v m, w.Wf → (World.add_body w p v m).1.Wf) ∧
    (∀ w, (World.clear w).Wf) ∧
    (∀ w s, w.Wf → (compute_gravity w s).Wf) ∧
    (∀ w, w.Wf → (compute_gravity1 w).Wf) ∧
    (∀ w dt, w.Wf → (step_rk4 w dt).Wf) ∧
    (∀ w dt tol, w.Wf → (step_dopri54 w dt tol).1.Wf) ∧
    (∀ w dt, w.Wf → (step_leapfrog w dt).Wf) := by
  refine ⟨fun w n h => h, ?_, ?_, fun w s h => Wf_compute_gravity h s,
    fun w h => Wf_compute_gravity1 h, fun w dt h => Wf_step_rk4 h dt,
    fun w dt tol h => Wf_step_dopri54 h dt tol, fun w dt h => Wf_step_leapfrog h dt⟩
  · intro w p v m h
    exact ⟨by simp [World.add_body, h.hpx], by simp [World.add_body, h.hpy],
      by simp [World.add_body, h.hpz], by simp [World.add_body, h.hvx],
      by simp [World.add_body, h.hvy], by simp [World.add_body, h.hvz],
      by simp [World.add_body, h.hax], by simp [World.add_body, h.hay],
      by simp [World.add_body, h.haz], by simp [World.add_body, h.hmass]⟩
  · intro w
    exact ⟨rfl, rfl, rfl, rfl, rfl, rfl, rfl, rfl, rfl, rfl⟩

/-- Witness for C9 at a concrete input: the invariant after each operation on
a concrete one-body world. -/
theorem public_ops_preserve_invariant_witness :
    oneBody.Wf ∧
    (World.reserve oneBody 4).Wf ∧
    (World.add_body oneBody ⟨1, 1, 1⟩ ⟨0, 0, 0⟩ 2).1.Wf ∧
    (World.clear oneBody).Wf ∧
    (compute_gravity oneBody 1).Wf ∧
    (compute_gravity1 oneBody).Wf ∧
    (step_rk4 oneBody 1).Wf ∧
    (step_dopri54 oneBody 1 1).1.Wf ∧
    (step_leapfrog oneBody 1).Wf :=
  ⟨oneBody_Wf,
    public_ops_preserve_invariant.1 oneBody 4 oneBody_Wf,
    public_ops_preserve_invariant.2.1 oneBody ⟨1, 1, 1⟩ ⟨0, 0, 0⟩ 2 oneBody_Wf,
    public_ops_preserve_invariant.2.2.1 oneBody,
    public_ops_preserve_invariant.2.2.2.1 oneBody 1 oneBody_Wf,
    public_ops_preserve_invariant.2.2.2.2.1 oneBody oneBody_Wf,
    public_ops_preserve_invariant.2.2.2.2.2.1 oneBody 1 oneBody_Wf,
    public_ops_preserve_invariant.2.2.2.2.2.2.1 oneBody 1 1 oneBody_Wf,
    public_ops_preserve_invariant.2.2.2.2.2.2.2 oneBody 1 oneBody_Wf⟩

/-! ## Claim C8 -/

theorem addSeq_count_indices (w : World) (args : List (Vec3 × Vec3 × ℝ)) :
    (addSeq w args).1.count = w.count + args.length ∧
    (addSeq w args).2 = List.range' w.count args.length := by
  induction args generalizing w with
  | nil => exact ⟨rfl, rfl⟩
  | cons a rest ih =>
    obtain ⟨h1, h2⟩ := ih (World.add_body w a.1 a.2.1 a.2.2).1
    refine ⟨?_, ?_⟩
    · show (addSeq (World.add_body w a.1 a.2.1 a.2.2).1 rest).1.count = _
      rw [h1]
      show w.count + 1 + rest.length = w.count + (rest.length + 1)
      omega
    · show (World.add_body w a.1 a.2.1 a.2.2).2 :: (addSeq _ rest).2 = _
      rw [h2, List.length_cons, List.range'_succ]
      rfl

/-- C8: `add_body` on an empty world returns index 0; after k successive
`add_body` calls starting from an empty world the body count equals k and the
calls returned the pre-call counts 0, 1, …, k−1 as indices; each call appends
one entry to every parallel sequence, the acceleration entries initialized to
zero; and `clear` resets the store to the empty world (count 0, time 0, all
ten sequences empty) regardless of prior state. -/
theorem add_body_clear_spec :
    (∀ p v m, (World.add_body World.emptyWorld p v m).2 = 0) ∧
    (∀ args, (addSeq World.emptyWorld args).1.count = args.length ∧
      (addSeq World.emptyWorld args).2 = List.range args.length) ∧
    (∀ w p v m,
      (World.add_body w p v m).2 = w.count ∧
      (World.add_body w p v m).1.px = w.px ++ [p.x] ∧
      (World.add_body w p v m).1.py = w.py ++ [p.y] ∧
      (World.add_body w p v m).1.pz = w.pz ++ [p.z] ∧
      (World.add_body w p v m).1.vx = w.vx ++ [v.x] ∧
      (World.add_body w p v m).1.vy = w.vy ++ [v.y] ∧
      (World.add_body w p v m).1.vz = w.vz ++ [v.z] ∧
      (World.add_body w p v m).1.ax = w.ax ++ [0] ∧
      (World.add_body w p v m).1.ay = w.ay ++ [0] ∧
      (World.add_body w p v m).1.az = w.az ++ [0] ∧
      (World.add_body w p v m).1.mass = w.mass ++ [m] ∧
      (World.add_body w p v m).1.count = w.count + 1) ∧
    (∀ w, World.clear w = World.emptyWorld) := by
  refine ⟨fun p v m => rfl, ?_, ?_, fun w => rfl⟩
  · intro args
    obtain ⟨h1, h2⟩ := addSeq_count_indices World.emptyWorld args
    refine ⟨by simpa [World.emptyWorld] using h1, ?_⟩
    rw [h2, List.range_eq_range']
    rfl
  · intro w p v m
    refine ⟨rfl, rfl, rfl, rfl, rfl, rfl, rfl, ?_, ?_, ?_, rfl, rfl⟩ <;>
      norm_num [World.add_body]

/-! ## Projection lemmas for the leapfrog phases -/

@[simp] theorem compute_gravity1_px (w : World) : (compute_gravity1 w).px = w.px := rfl

@[simp] theorem compute_gravity1_py (w : World) : (compute_gravity1 w).py = w.py := rfl

@[simp] theorem compute_gravity1_pz (w : World) : (compute_gravity1 w).pz = w.pz := rfl

@[simp] theorem compute_gravity1_vx (w : World) : (compute_gravity1 w).vx = w.vx := rfl

@[simp] theorem compute_gravity1_vy (w : World) : (compute_gravity1 w).vy = w.vy := rfl

@[simp] theorem compute_gravity1_vz (w : World) : (compute_gravity1 w).vz = w.vz := rfl

@[simp] theorem compute_gravity1_mass (w : World) : (compute_gravity1 w).mass = w.mass := rfl

@[simp] theorem compute_gravity1_count (w : World) : (compute_gravity1 w).count = w.count := rfl

@[simp] theorem compute_gravity1_time (w : World) : (compute_gravity1 w).time = w.time := rfl

theorem halfKick_vx (w : World) (dt : ℝ) :
    (halfKick w dt).vx = seqN w.count fun i => sget w.vx i + 0.5 * dt * sget w.ax i := rfl

theorem halfKick_vy (w : World) (dt : ℝ) :
    (halfKick w dt).vy = seqN w.count fun i => sget w.vy i + 0.5 * dt * sget w.ay i := rfl

theorem halfKick_vz (w : World) (dt : ℝ) :
    (halfKick w dt).vz = seqN w.count fun i => sget w.vz i + 0.5 * dt * sget w.az i := rfl

@[simp] theorem halfKick_px (w : World) (dt : ℝ) : (halfKick w dt).px = w.px := rfl

@[simp] theorem halfKick_py (w : World) (dt : ℝ) : (halfKick w dt).py = w.py := rfl

@[simp] theorem halfKick_pz (w : World) (dt : ℝ) : (halfKick w dt).pz = w.pz := rfl

@[simp] theorem halfKick_ax (w : World) (dt : ℝ) : (halfKick w dt).ax = w.ax := rfl

@[simp] theorem halfKick_ay (w : World) (dt : ℝ) : (halfKick w dt).ay = w.ay := rfl

@[simp] theorem halfKick_az (w : World) (dt : ℝ) : (halfKick w dt).az = w.az := rfl

@[simp] theorem halfKick_count (w : World) (dt : ℝ) : (halfKick w dt).count = w.count := rfl

@[simp] theorem halfKick_time (w : World) (dt : ℝ) : (halfKick w dt).time = w.time := rfl

theorem drift_px (w : World) (dt : ℝ) :
    (drift w dt).px = seqN w.count fun i => sget w.px i + dt * sget w.vx i := rfl

theorem drift_py (w : World) (dt : ℝ) :
    (drift w dt).py = seqN w.count fun i => sget w.py i + dt * sget w.vy i := rfl

theorem drift_pz (w : World) (dt : ℝ) :
    (drift w dt).pz = seqN w.count fun i => sget w.pz i + dt * sget w.vz i := rfl

@[simp] theorem drift_vx (w : World) (dt : ℝ) : (drift w dt).vx = w.vx := rfl

@[simp] theorem drift_vy (w : World) (dt : ℝ) : (drift w dt).vy = w.vy := rfl

@[simp] theorem drift_vz (w : World) (dt : ℝ) : (drift w dt).vz = w.vz := rfl

@[simp] theorem drift_ax (w : World) (dt : ℝ) : (drift w dt).ax = w.ax := rfl

@[simp] theorem drift_ay (w : World) (dt : ℝ) : (drift w dt).ay = w.ay := rfl

@[simp] theorem drift_az (w : World) (dt : ℝ) : (drift w dt).az = w.az := rfl

@[simp] theorem drift_count (w : World) (dt : ℝ) : (drift w dt).count = w.count := rfl

@[simp] theorem drift_time (w : World) (dt : ℝ) : (drift w dt).time = w.time := rfl

theorem step_leapfrog_px (w : World) (dt : ℝ) :
    (step_leapfrog w dt).px = (drift (halfKick w dt) dt).px := rfl

theorem step_leapfrog_py (w : World) (dt : ℝ) :
    (step_leapfrog w dt).py = (drift (halfKick w dt) dt).py := rfl

theorem step_leapfrog_pz (w : World) (dt : ℝ) :
    (step_leapfrog w dt).pz = (drift (halfKick w dt) dt).pz := rfl

theorem step_leapfrog_vx (w : World) (dt : ℝ) :
    (step_leapfrog w dt).vx =
      (halfKick (compute_gravity1 (drift (halfKick w dt) dt)) dt).vx := rfl

theorem step_leapfrog_vy (w : World) (dt : ℝ) :
    (step_leapfrog w dt).vy =
      (halfKick (compute_gravity1 (drift (halfKick w dt) dt)) dt).vy := rfl

theorem step_leapfrog_vz (w : World) (dt : ℝ) :
    (step_leapfrog w dt).vz =
      (halfKick (compute_gravity1 (drift (halfKick w dt) dt)) dt).vz := rfl


/-! ## Claim C5 -/

/-- C5: `step_leapfrog` performs, in order, a half kick with the
accelerations stored at entry, a drift with the updated velocities, exactly
one gravity recomputation at the new positions (the returned accelerations
are precisely the gravity output at the kicked-and-drifted state; no other
acceleration write occurs in the step), a second half kick with the new
accelerations, and advances elapsed time by dt; and when every stored
acceleration entry is zero (as initialized by `add_body`), the first half
kick leaves every velocity unchanged (the step is total — no error is
raised). -/
theorem step_leapfrog_spec (w : World) (dt : ℝ) (h : w.Wf) :
    (∀ i, i < w.count →
      sget (step_leapfrog w dt).px i =
        sget w.px i + dt * (sget w.vx i + 0.5 * dt * sget w.ax i) ∧
      sget (step_leapfrog w dt).py i =
        sget w.py i + dt * (sget w.vy i + 0.5 * dt * sget w.ay i) ∧
      sget (step_leapfrog w dt).pz i =
        sget w.pz i + dt * (sget w.vz i + 0.5 * dt * sget w.az i) ∧
      sget (step_leapfrog w dt).vx i =
        (sget w.vx i + 0.5 * dt * sget w.ax i) +
          0.5 * dt * sget (compute_gravity1 (drift (halfKick w dt) dt)).ax i ∧
      sget (step_leapfrog w dt).vy i =
        (sget w.vy i + 0.5 * dt * sget w.ay i) +
          0.5 * dt * sget (compute_gravity1 (drift (halfKick w dt) dt)).ay i ∧
      sget (step_leapfrog w dt).vz i =
        (sget w.vz i + 0.5 * dt * sget w.az i) +
          0.5 * dt * sget (compute_gravity1 (drift (halfKick w dt) dt)).az i) ∧
    ((step_leapfrog w dt).ax = (compute_gravity1 (drift (halfKick w dt) dt)).ax ∧
     (step_leapfrog w dt).ay = (compute_gravity1 (drift (halfKick w dt) dt)).ay ∧
     (step_leapfrog w dt).az = (compute_gravity1 (drift (halfKick w dt) dt)).az) ∧
    (step_leapfrog w dt).time = w.time + dt ∧
    ((w.ax = List.replicate w.count 0 ∧ w.ay = List.replicate w.count 0 ∧
      w.az = List.replicate w.count 0) →
      (halfKick w dt).vx = w.vx ∧ (halfKick w dt).vy = w.vy ∧
        (halfKick w dt).vz = w.vz) := by
  refine ⟨?_, ⟨rfl, rfl, rfl⟩, rfl, ?_⟩
  · intro i hi
    refine ⟨?_, ?_, ?_, ?_, ?_, ?_⟩
    · rw [step_leapfrog_px, drift_px, halfKick_count, sget_seqN _ hi, halfKick_px,
        halfKick_vx, sget_seqN _ hi]
    · rw [step_leapfrog_py, drift_py, halfKick_count, sget_seqN _ hi, halfKick_py,
        halfKick_vy, sget_seqN _ hi]
    · rw [step_leapfrog_pz, drift_pz, halfKick_count, sget_seqN _ hi, halfKick_pz,
        halfKick_vz, sget_seqN _ hi]
    · rw [step_leapfrog_vx, halfKick_vx]
      simp only [compute_gravity1_count, compute_gravity1_vx, drift_count,
        drift_vx, halfKick_count]
      rw [sget_seqN _ hi, halfKick_vx, sget_seqN _ hi]
    · rw [step_leapfrog_vy, halfKick_vy]
      simp only [compute_gravity1_count, compute_gravity1_vy, drift_count,
        drift_vy, halfKick_count]
      rw [sget_seqN _ hi, halfKick_vy, sget_seqN _ hi]
    · rw [step_leapfrog_vz, halfKick_vz]
      simp only [compute_gravity1_count, compute_gravity1_vz, drift_count,
        drift_vz, halfKick_count]
      rw [sget_seqN _ hi, halfKick_vz, sget_seqN _ hi]
  · rintro ⟨hx, hy, hz⟩
    refine ⟨?_, ?_, ?_⟩
    · rw [halfKick_vx, ← copyN_eq_self h.hvx]
      apply seqN_congr
      intro i hi
      rw [hx, sget_replicate, sget_copyN _ hi]
      ring
    · rw [halfKick_vy, ← copyN_eq_self h.hvy]
      apply seqN_congr
      intro i hi
      rw [hy, sget_replicate, sget_copyN _ hi]
      ring
    · rw [halfKick_vz, ← copyN_eq_self h.hvz]
      apply seqN_congr
      intro i hi
      rw [hz, sget_replicate, sget_copyN _ hi]
      ring

/-- Witness for C5 at a concrete input: the one-body world (whose
accelerations are the zeros set by `add_body`), dt = 1. -/
theorem step_leapfrog_spec_witness :
    oneBody.Wf ∧ (step_leapfrog oneBody 1).time = oneBody.time + 1 ∧
    (halfKick oneBody 1).vx = oneBody.vx :=
  ⟨oneBody_Wf, (step_leapfrog_spec oneBody 1 oneBody_Wf).2.2.1,
   ((step_leapfrog_spec oneBody 1 oneBody_Wf).2.2.2
     ⟨by norm_num [oneBody, World.add_body, World.emptyWorld, List.replicate],
      by norm_num [oneBody, World.add_body, World.emptyWorld, List.replicate],
      by norm_num [oneBody, World.add_body, World.emptyWorld, List.replicate]⟩).1⟩

/-! ## Claim C2 -/

/-- C2 (amended): for every `step_dopri54` call, accepted or rejected, the
returned `dt_next` equals `dt × clamp(0.9 × (tol/(error_estimate + 1e-30))^(1/5),
0.2, 5.0)`; consequently `dt_next` is strictly positive for every call with
dt > 0 (at dt = 0 the code returns `dt_next = 0`, see the counterexample). -/
theorem step_dopri54_dt_next_formula (w : World) (dt tol : ℝ) :
    (step_dopri54 w dt tol).2.dt_next =
      dt * max 0.2 (min 5.0 (0.9 * Real.rpow
        (tol / ((step_dopri54 w dt tol).2.error_estimate + 1e-30)) 0.2)) ∧
    (0 < dt → 0 < (step_dopri54 w dt tol).2.dt_next) := by
  have herr : (step_dopri54 w dt tol).2.error_estimate = dopriErr w dt := by
    unfold step_dopri54
    simp only
    rw [apply_ite (fun p : World × StepResult => p.2.error_estimate)]
    simp
  have hnext : (step_dopri54 w dt tol).2.dt_next =
      dt * max 0.2 (min 5.0 (0.9 * Real.rpow (tol / (dopriErr w dt + 1e-30)) 0.2)) := by
    unfold step_dopri54
    simp only
    rw [apply_ite (fun p : World × StepResult => p.2.dt_next)]
    simp
  rw [herr, hnext]
  refine ⟨rfl, fun hdt => ?_⟩
  apply mul_pos hdt
  calc (0 : ℝ) < 0.2 := by norm_num
    _ ≤ max 0.2 (min 5.0 (0.9 * Real.rpow (tol / (dopriErr w dt + 1e-30)) 0.2)) :=
      le_max_left _ _

/-- Witness for C2's amended theorem at a concrete input (one body, dt = 1,
tol = 1). -/
theorem step_dopri54_dt_next_formula_witness :
    (step_dopri54 oneBody 1 1).2.dt_next =
      1 * max 0.2 (min 5.0 (0.9 * Real.rpow
        (1 / ((step_dopri54 oneBody 1 1).2.error_estimate + 1e-30)) 0.2)) ∧
    0 < (step_dopri54 oneBody 1 1).2.dt_next :=
  ⟨(step_dopri54_dt_next_formula oneBody 1 1).1,
   (step_dopri54_dt_next_formula oneBody 1 1).2 one_pos⟩

/-- C2 counterexample: calling `step_dopri54` with dt = 0 (here on the empty
world, with the default tolerance 1e-9) returns `dt_next = 0 × clamp(…) = 0`,
which is not strictly positive — refuting the unconditional claim that
`dt_next` is strictly positive for *every* call. -/
theorem step_dopri54_dt_next_not_pos :
    ¬ (0 < (step_dopri54 World.emptyWorld 0 (1e-9)).2.dt_next) := by
  have hz : (step_dopri54 World.emptyWorld 0 (1e-9)).2.dt_next = 0 := by
    unfold step_dopri54
    simp only
    rw [apply_ite (fun p : World × StepResult => p.2.dt_next)]
    simp
  rw [hz]
  exact lt_irrefl 0

/-! ## Claim C1 -/

theorem dopriErr_nonneg (w : World) (dt : ℝ) : 0 ≤ dopriErr w dt := by
  unfold dopriErr
  simp only
  apply foldl_invariant (fun m : ℝ => 0 ≤ m) _ _ _ (by norm_num)
  intro m i hm
  exact le_trans (le_trans hm (le_max_left _ _)) (le_max_left _ _)

/-- If the error exceeds a nonnegative tolerance, the step-size factor of the
controller is strictly below 1 (it is at most 0.9 before clamping). -/
theorem dopri_scale_lt_one {e tol : ℝ} (he : 0 ≤ e) (htol : 0 ≤ tol) (hlt : tol < e) :
    max 0.2 (min 5.0 (0.9 * Real.rpow (tol / (e + 1e-30)) 0.2)) < 1 := by
  have heps : (0 : ℝ) < 1e-30 := by norm_num
  have hden : (0 : ℝ) < e + 1e-30 := by linarith
  have hr0 : 0 ≤ tol / (e + 1e-30) := div_nonneg htol hden.le
  have hr1 : tol / (e + 1e-30) < 1 := (div_lt_one hden).mpr (by linarith)
  have hpow : Real.rpow (tol / (e + 1e-30)) 0.2 < 1 :=
    Real.rpow_lt_one hr0 hr1 (by norm_num)
  apply max_lt (by norm_num)
  calc min 5.0 (0.9 * Real.rpow (tol / (e + 1e-30)) 0.2) ≤
      0.9 * Real.rpow (tol / (e + 1e-30)) 0.2 := min_le_right _ _
    _ < 0.9 * 1 := by
        have h9 : (0 : ℝ) < 0.9 := by norm_num
        exact mul_lt_mul_of_pos_left hpow h9
    _ < 1 := by norm_num

theorem dopriS7_px (w : World) (dt : ℝ) :
    (dopriS7 w dt).px = seqN w.count fun i => sget (copyN w.count w.px) i +
      dt * (dopri.a71 * sget (dopriK1 w).x i + dopri.a73 * sget (dopriK3 w dt).x i +
        dopri.a74 * sget (dopriK4 w dt).x i + dopri.a75 * sget (dopriK5 w dt).x i +
        dopri.a76 * sget (dopriK6 w dt).x i) := rfl

theorem dopriS7_py (w : World) (dt : ℝ) :
    (dopriS7 w dt).py = seqN w.count fun i => sget (copyN w.count w.py) i +
      dt * (dopri.a71 * sget (dopriK1 w).y i + dopri.a73 * sget (dopriK3 w dt).y i +
        dopri.a74 * sget (dopriK4 w dt).y i + dopri.a75 * sget (dopriK5 w dt).y i +
        dopri.a76 * sget (dopriK6 w dt).y i) := rfl

theorem dopriS7_pz (w : World) (dt : ℝ) :
    (dopriS7 w dt).pz = seqN w.count fun i => sget (copyN w.count w.pz) i +
      dt * (dopri.a71 * sget (dopriK1 w).z i + dopri.a73 * sget (dopriK3 w dt).z i +
        dopri.a74 * sget (dopriK4 w dt).z i + dopri.a75 * sget (dopriK5 w dt).z i +
        dopri.a76 * sget (dopriK6 w dt).z i) := rfl

theorem dopriS7_vx (w : World) (dt : ℝ) :
    (dopriS7 w dt).vx = seqN w.count fun i => sget (copyN w.count w.vx) i +
      dt * (dopri.a71 * sget (dopriK1 w).vx i + dopri.a73 * sget (dopriK3 w dt).vx i +
        dopri.a74 * sget (dopriK4 w dt).vx i + dopri.a75 * sget (dopriK5 w dt).vx i +
        dopri.a76 * sget (dopriK6 w dt).vx i) := rfl

theorem dopriS7_vy (w : World) (dt : ℝ) :
    (dopriS7 w dt).vy = seqN w.count fun i => sget (copyN w.count w.vy) i +
      dt * (dopri.a71 * sget (dopriK1 w).vy i + dopri.a73 * sget (dopriK3 w dt).vy i +
        dopri.a74 * sget (dopriK4 w dt).vy i + dopri.a75 * sget (dopriK5 w dt).vy i +
        dopri.a76 * sget (dopriK6 w dt).vy i) := rfl

theorem dopriS7_vz (w : World) (dt : ℝ) :
    (dopriS7 w dt).vz = seqN w.count fun i => sget (copyN w.count w.vz) i +
      dt * (dopri.a71 * sget (dopriK1 w).vz i + dopri.a73 * sget (dopriK3 w dt).vz i +
        dopri.a74 * sget (dopriK4 w dt).vz i + dopri.a75 * sget (dopriK5 w dt).vz i +
        dopri.a76 * sget (dopriK6 w dt).vz i) := rfl

/-- The error estimate carried in the returned `StepResult` is the computed
`max_err`, in both branches. -/
theorem step_dopri54_error (w : World) (dt tol : ℝ) :
    (step_dopri54 w dt tol).2.error_estimate = dopriErr w dt := by
  unfold step_dopri54
  simp only
  rw [apply_ite (fun p : World × StepResult => p.2.error_estimate)]
  simp

/-- C1: for every well-formed world with at least one body, every dt > 0 and
every (nonnegative) tolerance: if the computed error estimate exceeds the
tolerance, `step_dopri54` restores every body's position and velocity to the
pre-call values, leaves elapsed time unchanged, and returns `dt_used = 0`
and `dt_next < dt`; if the error estimate is at most the tolerance, it
commits the fifth-order solution (pre-step state plus dt times the b-weighted
stage combination), advances elapsed time by exactly dt, and returns
`dt_used = dt`. -/
theorem step_dopri54_accept_reject (w : World) (dt tol : ℝ) (h : w.Wf)
    (hn : 0 < w.count) (hdt : 0 < dt) (htol : 0 ≤ tol) :
    (tol < (step_dopri54 w dt tol).2.error_estimate →
      (step_dopri54 w dt tol).1.px = w.px ∧
      (step_dopri54 w dt tol).1.py = w.py ∧
      (step_dopri54 w dt tol).1.pz = w.pz ∧
      (step_dopri54 w dt tol).1.vx = w.vx ∧
      (step_dopri54 w dt tol).1.vy = w.vy ∧
      (step_dopri54 w dt tol).1.vz = w.vz ∧
      (step_dopri54 w dt tol).1.time = w.time ∧
      (step_dopri54 w dt tol).2.dt_used = 0 ∧
      (step_dopri54 w dt tol).2.dt_next < dt) ∧
    ((step_dopri54 w dt tol).2.error_estimate ≤ tol →
      (step_dopri54 w dt tol).1.px = (seqN w.count fun i => sget w.px i +
        dt * (dopri.b1 * sget (dopriK1 w).x i + dopri.b3 * sget (dopriK3 w dt).x i +
          dopri.b4 * sget (dopriK4 w dt).x i + dopri.b5 * sget (dopriK5 w dt).x i +
          dopri.b6 * sget (dopriK6 w dt).x i)) ∧
      (step_dopri54 w dt tol).1.py = (seqN w.count fun i => sget w.py i +
        dt * (dopri.b1 * sget (dopriK1 w).y i + dopri.b3 * sget (dopriK3 w dt).y i +
          dopri.b4 * sget (dopriK4 w dt).y i + dopri.b5 * sget (dopriK5 w dt).y i +
          dopri.b6 * sget (dopriK6 w dt).y i)) ∧
      (step_dopri54 w dt tol).1.pz = (seqN w.count fun i => sget w.pz i +
        dt * (dopri.b1 * sget (dopriK1 w).z i + dopri.b3 * sget (dopriK3 w dt).z i +
          dopri.b4 * sget (dopriK4 w dt).z i + dopri.b5 * sget (dopriK5 w dt).z i +
          dopri.b6 * sget (dopriK6 w dt).z i)) ∧
      (step_dopri54 w dt tol).1.vx = (seqN w.count fun i => sget w.vx i +
        dt * (dopri.b1 * sget (dopriK1 w).vx i + dopri.b3 * sget (dopriK3 w dt).vx i +
          dopri.b4 * sget (dopriK4 w dt).vx i + dopri.b5 * sget (dopriK5 w dt).vx i +
          dopri.b6 * sget (dopriK6 w dt).vx i)) ∧
      (step_dopri54 w dt tol).1.vy = (seqN w.count fun i => sget w.vy i +
        dt * (dopri.b1 * sget (dopriK1 w).vy i + dopri.b3 * sget (dopriK3 w dt).vy i +
          dopri.b4 * sget (dopriK4 w dt).vy i + dopri.b5 * sget (dopriK5 w dt).vy i +
          dopri.b6 * sget (dopriK6 w dt).vy i)) ∧
      (step_dopri54 w dt tol).1.vz = (seqN w.count fun i => sget w.vz i +
        dt * (dopri.b1 * sget (dopriK1 w).vz i + dopri.b3 * sget (dopriK3 w dt).vz i +
          dopri.b4 * sget (dopriK4 w dt).vz i + dopri.b5 * sget (dopriK5 w dt).vz i +
          dopri.b6 * sget (dopriK6 w dt).vz i)) ∧
      (step_dopri54 w dt tol).1.time = w.time + dt ∧
      (step_dopri54 w dt tol).2.dt_used = dt) := by
  rw [step_dopri54_error]
  by_cases hc : dopriErr w dt > tol
  · -- rejected step
    have hstep : step_dopri54 w dt tol =
        ({ dopriG7 w dt with
           px := copyN w.count w.px, py := copyN w.count w.py, pz := copyN w.count w.pz
           vx := copyN w.count w.vx, vy := copyN w.count w.vy, vz := copyN w.count w.vz },
         ⟨0.0, dt * max 0.2 (min 5.0
            (0.9 * Real.rpow (tol / (dopriErr w dt + 1e-30)) 0.2)), dopriErr w dt⟩) := by
      unfold step_dopri54
      simp only
      rw [if_pos hc]
    refine ⟨fun _ => ?_, fun hacc => absurd hc (not_lt.mpr hacc)⟩
    rw [hstep]
    refine ⟨copyN_eq_self h.hpx, copyN_eq_self h.hpy, copyN_eq_self h.hpz,
      copyN_eq_self h.hvx, copyN_eq_self h.hvy, copyN_eq_self h.hvz, ?_, by norm_num, ?_⟩
    · show (dopriG7 w dt).time = w.time
      simp
    · show dt * max 0.2 (min 5.0 (0.9 * Real.rpow (tol / (dopriErr w dt + 1e-30)) 0.2)) < dt
      exact mul_lt_of_lt_one_right hdt
        (dopri_scale_lt_one (dopriErr_nonneg w dt) htol hc)
  · -- accepted step
    have hstep : step_dopri54 w dt tol =
        ({ dopriG7 w dt with time := (dopriG7 w dt).time + dt },
         ⟨dt, dt * max 0.2 (min 5.0
            (0.9 * Real.rpow (tol / (dopriErr w dt + 1e-30)) 0.2)), dopriErr w dt⟩) := by
      unfold step_dopri54
      simp only
      rw [if_neg hc]
    refine ⟨fun hrej => absurd hrej hc, fun _ => ?_⟩
    rw [hstep]
    refine ⟨?_, ?_, ?_, ?_, ?_, ?_, by simp, rfl⟩
    · show (dopriS7 w dt).px = _
      rw [dopriS7_px]
      apply seqN_congr
      intro i hi
      rw [sget_copyN _ hi]
      rfl
    · show (dopriS7 w dt).py = _
      rw [dopriS7_py]
      apply seqN_congr
      intro i hi
      rw [sget_copyN _ hi]
      rfl
    · show (dopriS7 w dt).pz = _
      rw [dopriS7_pz]
      apply seqN_congr
      intro i hi
      rw [sget_copyN _ hi]
      rfl
    · show (dopriS7 w dt).vx = _
      rw [dopriS7_vx]
      apply seqN_congr
      intro i hi
      rw [sget_copyN _ hi]
      rfl
    · show (dopriS7 w dt).vy = _
      rw [dopriS7_vy]
      apply seqN_congr
      intro i hi
      rw [sget_copyN _ hi]
      rfl
    · show (dopriS7 w dt).vz = _
      rw [dopriS7_vz]
      apply seqN_congr
      intro i hi
      rw [sget_copyN _ hi]
      rfl

/-! ## Evaluation of the pipeline on a static one-body world -/

theorem staticW_Wf (a b c m t : ℝ) : (staticW a b c m t).Wf :=
  ⟨rfl, rfl, rfl, rfl, rfl, rfl, rfl, rfl, rfl, rfl⟩

theorem compute_gravity_staticW (a b c m t s : ℝ) :
    compute_gravity (staticW a b c m t) s = staticW 0 0 0 m t := by
  unfold compute_gravity gravOuter gravInner staticW
  norm_num [sget, List.range_succ]

theorem dopriG1_staticW (a b c m t : ℝ) :
    dopriG1 (staticW a b c m t) = staticW 0 0 0 m t :=
  compute_gravity_staticW a b c m t 0.0

theorem readK_staticW (m t : ℝ) :
    readK (staticW 0 0 0 m t) = ⟨[0], [0], [0], [0], [0], [0]⟩ := rfl

theorem dopriK1_staticW (a b c m t : ℝ) :
    dopriK1 (staticW a b c m t) = ⟨[0], [0], [0], [0], [0], [0]⟩ := by
  unfold dopriK1
  rw [dopriG1_staticW, readK_staticW]

theorem dopriS2_staticW (a b c m t dt : ℝ) :
    dopriS2 (staticW a b c m t) dt = staticW 0 0 0 m t := by
  unfold dopriS2
  rw [dopriG1_staticW, dopriK1_staticW]
  norm_num [staticW, seqN, copyN, sget, List.range_succ]

theorem dopriG2_staticW (a b c m t dt : ℝ) :
    dopriG2 (staticW a b c m t) dt = staticW 0 0 0 m t := by
  unfold dopriG2 compute_gravity1
  rw [dopriS2_staticW]
  exact compute_gravity_staticW 0 0 0 m t 0.0

theorem dopriK2_staticW (a b c m t dt : ℝ) :
    dopriK2 (staticW a b c m t) dt = ⟨[0], [0], [0], [0], [0], [0]⟩ := by
  unfold dopriK2
  rw [dopriG2_staticW, readK_staticW]

theorem dopriS3_staticW (a b c m t dt : ℝ) :
    dopriS3 (staticW a b c m t) dt = staticW 0 0 0 m t := by
  unfold dopriS3
  rw [dopriG2_staticW, dopriK1_staticW, dopriK2_staticW]
  norm_num [staticW, seqN, copyN, sget, List.range_succ]

theorem dopriG3_staticW (a b c m t dt : ℝ) :
    dopriG3 (staticW a b c m t) dt = staticW 0 0 0 m t := by
  unfold dopriG3 compute_gravity1
  rw [dopriS3_staticW]
  exact compute_gravity_staticW 0 0 0 m t 0.0

theorem dopriK3_staticW (a b c m t dt : ℝ) :
    dopriK3 (staticW a b c m t) dt = ⟨[0], [0], [0], [0], [0], [0]⟩ := by
  unfold dopriK3
  rw [dopriG3_staticW, readK_staticW]

theorem dopriS4_staticW (a b c m t dt : ℝ) :
    dopriS4 (staticW a b c m t) dt = staticW 0 0 0 m t := by
  unfold dopriS4
  rw [dopriG3_staticW, dopriK1_staticW, dopriK2_staticW, dopriK3_staticW]
  norm_num [staticW, seqN, copyN, sget, List.range_succ]

theorem dopriG4_staticW (a b c m t dt : ℝ) :
    dopriG4 (staticW a b c m t) dt = staticW 0 0 0 m t := by
  unfold dopriG4 compute_gravity1
  rw [dopriS4_staticW]
  exact compute_gravity_staticW 0 0 0 m t 0.0

theorem dopriK4_staticW (a b c m t dt : ℝ) :
    dopriK4 (staticW a b c m t) dt = ⟨[0], [0], [0], [0], [0], [0]⟩ := by
  unfold dopriK4
  rw [dopriG4_staticW, readK_staticW]

theorem dopriS5_staticW (a b c m t dt : ℝ) :
    dopriS5 (staticW a b c m t) dt = staticW 0 0 0 m t := by
  unfold dopriS5
  rw [dopriG4_staticW, dopriK1_staticW, dopriK2_staticW, dopriK3_staticW, dopriK4_staticW]
  norm_num [staticW, seqN, copyN, sget, List.range_succ]

theorem dopriG5_staticW (a b c m t dt : ℝ) :
    dopriG5 (staticW a b c m t) dt = staticW 0 0 0 m t := by
  unfold dopriG5 compute_gravity1
  rw [dopriS5_staticW]
  exact compute_gravity_staticW 0 0 0 m t 0.0

theorem dopriK5_staticW (a b c m t dt : ℝ) :
    dopriK5 (staticW a b c m t) dt = ⟨[0], [0], [0], [0], [0], [0]⟩ := by
  unfold dopriK5
  rw [dopriG5_staticW, readK_staticW]

theorem dopriS6_staticW (a b c m t dt : ℝ) :
    dopriS6 (staticW a b c m t) dt = staticW 0 0 0 m t := by
  unfold dopriS6
  rw [dopriG5_staticW, dopriK1_staticW, dopriK2_staticW, dopriK3_staticW, dopriK4_staticW,
    dopriK5_staticW]
  norm_num [staticW, seqN, copyN, sget, List.range_succ]

theorem dopriG6_staticW (a b c m t dt : ℝ) :
    dopriG6 (staticW a b c m t) dt = staticW 0 0 0 m t := by
  unfold dopriG6 compute_gravity1
  rw [dopriS6_staticW]
  exact compute_gravity_staticW 0 0 0 m t 0.0

theorem dopriK6_staticW (a b c m t dt : ℝ) :
    dopriK6 (staticW a b c m t) dt = ⟨[0], [0], [0], [0], [0], [0]⟩ := by
  unfold dopriK6
  rw [dopriG6_staticW, readK_staticW]

theorem dopriS7_staticW (a b c m t dt : ℝ) :
    dopriS7 (staticW a b c m t) dt = staticW 0 0 0 m t := by
  unfold dopriS7
  rw [dopriG6_staticW, dopriK1_staticW, dopriK3_staticW, dopriK4_staticW, dopriK5_staticW,
    dopriK6_staticW]
  norm_num [staticW, seqN, copyN, sget, List.range_succ]

theorem dopriG7_staticW (a b c m t dt : ℝ) :
    dopriG7 (staticW a b c m t) dt = staticW 0 0 0 m t := by
  unfold dopriG7 compute_gravity1
  rw [dopriS7_staticW]
  exact compute_gravity_staticW 0 0 0 m t 0.0

theorem dopriK7_staticW (a b c m t dt : ℝ) :
    dopriK7 (staticW a b c m t) dt = ⟨[0], [0], [0], [0], [0], [0]⟩ := by
  unfold dopriK7
  rw [dopriG7_staticW, readK_staticW]

theorem dopriErr_staticW (a b c m t dt : ℝ) : dopriErr (staticW a b c m t) dt = 0 := by
  unfold dopriErr
  rw [dopriK1_staticW, dopriK3_staticW, dopriK4_staticW, dopriK5_staticW, dopriK6_staticW,
    dopriK7_staticW, dopriG7_staticW]
  norm_num [staticW, sget, List.range_succ]

/-- Witness for C1 at a concrete input: a static one-body world, dt = 1,
tol = 1; the error estimate is 0 ≤ 1, so the step is accepted, advances time
by 1 and reports `dt_used = 1`. -/
theorem step_dopri54_accept_reject_witness :
    ((staticW 0 0 0 1 0).Wf ∧ 0 < (staticW 0 0 0 1 0).count ∧
      (0 : ℝ) < 1 ∧ (0 : ℝ) ≤ 1 ∧
      (step_dopri54 (staticW 0 0 0 1 0) 1 1).2.error_estimate ≤ 1) ∧
    (step_dopri54 (staticW 0 0 0 1 0) 1 1).1.time = (staticW 0 0 0 1 0).time + 1 ∧
    (step_dopri54 (staticW 0 0 0 1 0) 1 1).2.dt_used = 1 := by
  have hW : (staticW 0 0 0 1 0).Wf := staticW_Wf 0 0 0 1 0
  have hacc : (step_dopri54 (staticW 0 0 0 1 0) 1 1).2.error_estimate ≤ 1 := by
    rw [step_dopri54_error, dopriErr_staticW]
    norm_num
  obtain ⟨_, _, _, _, _, _, htime, hused⟩ :=
    (step_dopri54_accept_reject (staticW 0 0 0 1 0) 1 1 hW Nat.one_pos one_pos
      zero_le_one).2 hacc
  exact ⟨⟨hW, Nat.one_pos, one_pos, zero_le_one, hacc⟩, htime, hused⟩

/-! ## Claim C10 -/

/-- C10: when `step_dopri54` rejects a step, the acceleration buffers are not
restored by `restore_state` (which copies back only positions and
velocities): on return they hold exactly the gravity-solver output evaluated
at the rejected seventh-stage trial state, even though positions, velocities
and elapsed time are restored to their pre-call values. (Hence, after a
rejected step, the stored accelerations in general no longer correspond to
the stored positions, which invalidates the leapfrog precondition; the
witness exhibits a world whose pre-call acceleration contents are destroyed
by a rejected step.) -/
theorem step_dopri54_reject_accel_stale (w : World) (dt tol : ℝ) (h : w.Wf)
    (hrej : tol < (step_dopri54 w dt tol).2.error_estimate) :
    (step_dopri54 w dt tol).1.ax = (compute_gravity1 (dopriS7 w dt)).ax ∧
    (step_dopri54 w dt tol).1.ay = (compute_gravity1 (dopriS7 w dt)).ay ∧
    (step_dopri54 w dt tol).1.az = (compute_gravity1 (dopriS7 w dt)).az ∧
    (step_dopri54 w dt tol).1.px = w.px ∧
    (step_dopri54 w dt tol).1.py = w.py ∧
    (step_dopri54 w dt tol).1.pz = w.pz ∧
    (step_dopri54 w dt tol).1.vx = w.vx ∧
    (step_dopri54 w dt tol).1.vy = w.vy ∧
    (step_dopri54 w dt tol).1.vz = w.vz ∧
    (step_dopri54 w dt tol).1.time = w.time := by
  rw [step_dopri54_error] at hrej
  have hstep : step_dopri54 w dt tol =
      ({ dopriG7 w dt with
         px := copyN w.count w.px, py := copyN w.count w.py, pz := copyN w.count w.pz
         vx := copyN w.count w.vx, vy := copyN w.count w.vy, vz := copyN w.count w.vz },
       ⟨0.0, dt * max 0.2 (min 5.0
          (0.9 * Real.rpow (tol / (dopriErr w dt + 1e-30)) 0.2)), dopriErr w dt⟩) := by
    unfold step_dopri54
    simp only
    rw [if_pos hrej]
  rw [hstep]
  exact ⟨rfl, rfl, rfl, copyN_eq_self h.hpx, copyN_eq_self h.hpy, copyN_eq_self h.hpz,
    copyN_eq_self h.hvx, copyN_eq_self h.hvy, copyN_eq_self h.hvz, by simp⟩

/-- Witness for C10 at a concrete input: a static one-body world whose
acceleration buffer holds 42; with tol = −1 the step (error 0) is rejected,
positions/velocities/time are restored, but the acceleration buffer comes
back as the stage-7 gravity output [0] ≠ [42]. -/
theorem step_dopri54_reject_accel_stale_witness :
    ((staticW 42 0 0 1 0).Wf ∧
      (-1 : ℝ) < (step_dopri54 (staticW 42 0 0 1 0) 1 (-1)).2.error_estimate) ∧
    (step_dopri54 (staticW 42 0 0 1 0) 1 (-1)).1.ax =
      (compute_gravity1 (dopriS7 (staticW 42 0 0 1 0) 1)).ax ∧
    (step_dopri54 (staticW 42 0 0 1 0) 1 (-1)).1.px = (staticW 42 0 0 1 0).px ∧
    (step_dopri54 (staticW 42 0 0 1 0) 1 (-1)).1.time = (staticW 42 0 0 1 0).time ∧
    (step_dopri54 (staticW 42 0 0 1 0) 1 (-1)).1.ax ≠ (staticW 42 0 0 1 0).ax := by
  have hW : (staticW 42 0 0 1 0).Wf := staticW_Wf 42 0 0 1 0
  have herr : (-1 : ℝ) < (step_dopri54 (staticW 42 0 0 1 0) 1 (-1)).2.error_estimate := by
    rw [step_dopri54_error, dopriErr_staticW]
    norm_num
  obtain ⟨hax, _, _, hpx, _, _, _, _, _, htime⟩ :=
    step_dopri54_reject_accel_stale (staticW 42 0 0 1 0) 1 (-1) hW herr
  refine ⟨⟨hW, herr⟩, hax, hpx, htime, ?_⟩
  rw [hax]
  have h7 : compute_gravity1 (dopriS7 (staticW 42 0 0 1 0) 1) = staticW 0 0 0 1 0 := by
    unfold compute_gravity1
    rw [dopriS7_staticW]
    exact compute_gravity_staticW 0 0 0 1 0 0.0
  rw [h7]
  show ([0] : List ℝ) ≠ [42]
  norm_num

/-! ## Claim C3 -/

/-- The error weights hard-coded in the source are exactly the differences of
the fifth-order and (spec-side, standard tableau) fourth-order solution
weights: per stage value `u`, `(Σ bᵢ uᵢ) − (Σ b̂ᵢ uᵢ) = Σ eᵢ uᵢ`. -/
theorem dopri_embedded_difference (u1 u3 u4 u5 u6 u7 : ℝ) :
    (dopri.b1 * u1 + dopri.b3 * u3 + dopri.b4 * u4 + dopri.b5 * u5 + dopri.b6 * u6 +
      dopri.b7 * u7) -
    (dopri.bh1 * u1 + dopri.bh3 * u3 + dopri.bh4 * u4 + dopri.bh5 * u5 + dopri.bh6 * u6 +
      dopri.bh7 * u7) =
    dopri.e1 * u1 + dopri.e3 * u3 + dopri.e4 * u4 + dopri.e5 * u5 + dopri.e6 * u6 +
      dopri.e7 * u7 := by
  unfold dopri.b1 dopri.b3 dopri.b4 dopri.b5 dopri.b6 dopri.b7 dopri.bh1 dopri.bh3
    dopri.bh4 dopri.bh5 dopri.bh6 dopri.bh7 dopri.e1 dopri.e3 dopri.e4 dopri.e5
    dopri.e6 dopri.e7
  norm_num
  ring_nf

/-- C3: the error estimate returned by `step_dopri54` is, per body and per
component, `dt` times the absolute difference between the fifth- and (standard
tableau) fourth-order weighted stage combinations; within each of the position
and velocity groups the three per-component values are summed and divided by
the body's `max(1, |position|)` resp. `max(1, |velocity|)` scale factor (read
off the stage-7 trial state), and the step's overall error is the running
maximum of these scaled group values across all bodies and both groups. -/
theorem dopri_error_estimate_spec (w : World) (dt tol : ℝ) :
    (step_dopri54 w dt tol).2.error_estimate =
      (List.range w.count).foldl
        (fun max_err i =>
          let dpx := dt * |(dopri.b1 * sget (dopriK1 w).x i +
            dopri.b3 * sget (dopriK3 w dt).x i + dopri.b4 * sget (dopriK4 w dt).x i +
            dopri.b5 * sget (dopriK5 w dt).x i + dopri.b6 * sget (dopriK6 w dt).x i +
            dopri.b7 * sget (dopriK7 w dt).x i) -
            (dopri.bh1 * sget (dopriK1 w).x i + dopri.bh3 * sget (dopriK3 w dt).x i +
             dopri.bh4 * sget (dopriK4 w dt).x i + dopri.bh5 * sget (dopriK5 w dt).x i +
             dopri.bh6 * sget (dopriK6 w dt).x i + dopri.bh7 * sget (dopriK7 w dt).x i)|
          let dpy := dt * |(dopri.b1 * sget (dopriK1 w).y i +
            dopri.b3 * sget (dopriK3 w dt).y i + dopri.b4 * sget (dopriK4 w dt).y i +
            dopri.b5 * sget (dopriK5 w dt).y i + dopri.b6 * sget (dopriK6 w dt).y i +
            dopri.b7 * sget (dopriK7 w dt).y i) -
            (dopri.bh1 * sget (dopriK1 w).y i + dopri.bh3 * sget (dopriK3 w dt).y i +
             dopri.bh4 * sget (dopriK4 w dt).y i + dopri.bh5 * sget (dopriK5 w dt).y i +
             dopri.bh6 * sget (dopriK6 w dt).y i + dopri.bh7 * sget (dopriK7 w dt).y i)|
          let dpz := dt * |(dopri.b1 * sget (dopriK1 w).z i +
            dopri.b3 * sget (dopriK3 w dt).z i + dopri.b4 * sget (dopriK4 w dt).z i +
            dopri.b5 * sget (dopriK5 w dt).z i + dopri.b6 * sget (dopriK6 w dt).z i +
            dopri.b7 * sget (dopriK7 w dt).z i) -
            (dopri.bh1 * sget (dopriK1 w).z i + dopri.bh3 * sget (dopriK3 w dt).z i +
             dopri.bh4 * sget (dopriK4 w dt).z i + dopri.bh5 * sget (dopriK5 w dt).z i +
             dopri.bh6 * sget (dopriK6 w dt).z i + dopri.bh7 * sget (dopriK7 w dt).z i)|
          let dvx := dt * |(dopri.b1 * sget (dopriK1 w).vx i +
            dopri.b3 * sget (dopriK3 w dt).vx i + dopri.b4 * sget (dopriK4 w dt).vx i +
            dopri.b5 * sget (dopriK5 w dt).vx i + dopri.b6 * sget (dopriK6 w dt).vx i +
            dopri.b7 * sget (dopriK7 w dt).vx i) -
            (dopri.bh1 * sget (dopriK1 w).vx i + dopri.bh3 * sget (dopriK3 w dt).vx i +
             dopri.bh4 * sget (dopriK4 w dt).vx i + dopri.bh5 * sget (dopriK5 w dt).vx i +
             dopri.bh6 * sget (dopriK6 w dt).vx i + dopri.bh7 * sget (dopriK7 w dt).vx i)|
          let dvy := dt * |(dopri.b1 * sget (dopriK1 w).vy i +
            dopri.b3 * sget (dopriK3 w dt).vy i + dopri.b4 * sget (dopriK4 w dt).vy i +
            dopri.b5 * sget (dopriK5 w dt).vy i + dopri.b6 * sget (dopriK6 w dt).vy i +
            dopri.b7 * sget (dopriK7 w dt).vy i) -
            (dopri.bh1 * sget (dopriK1 w).vy i + dopri.bh3 * sget (dopriK3 w dt).vy i +
             dopri.bh4 * sget (dopriK4 w dt).vy i + dopri.bh5 * sget (dopriK5 w dt).vy i +
             dopri.bh6 * sget (dopriK6 w dt).vy i + dopri.bh7 * sget (dopriK7 w dt).vy i)|
          let dvz := dt * |(dopri.b1 * sget (dopriK1 w).vz i +
            dopri.b3 * sget (dopriK3 w dt).vz i + dopri.b4 * sget (dopriK4 w dt).vz i +
            dopri.b5 * sget (dopriK5 w dt).vz i + dopri.b6 * sget (dopriK6 w dt).vz i +
            dopri.b7 * sget (dopriK7 w dt).vz i) -
            (dopri.bh1 * sget (dopriK1 w).vz i + dopri.bh3 * sget (dopriK3 w dt).vz i +
             dopri.bh4 * sget (dopriK4 w dt).vz i + dopri.bh5 * sget (dopriK5 w dt).vz i +
             dopri.bh6 * sget (dopriK6 w dt).vz i + dopri.bh7 * sget (dopriK7 w dt).vz i)|
          let scale_p := max 1.0 (Real.sqrt (sget (dopriG7 w dt).px i * sget (dopriG7 w dt).px i +
            sget (dopriG7 w dt).py i * sget (dopriG7 w dt).py i +
            sget (dopriG7 w dt).pz i * sget (dopriG7 w dt).pz i))
          let scale_v := max 1.0 (Real.sqrt (sget (dopriG7 w dt).vx i * sget (dopriG7 w dt).vx i +
            sget (dopriG7 w dt).vy i * sget (dopriG7 w dt).vy i +
            sget (dopriG7 w dt).vz i * sget (dopriG7 w dt).vz i))
          max (max max_err ((dpx + dpy + dpz) / scale_p)) ((dvx + dvy + dvz) / scale_v))
        0.0 := by
  rw [step_dopri54_error]
  unfold dopriErr
  simp only
  apply List.foldl_ext
  intro m i _
  simp only [dopri_embedded_difference]

/-! ## Claim C4 -/

theorem readK_x (g : World) : (readK g).x = copyN g.count g.vx := rfl

theorem readK_y (g : World) : (readK g).y = copyN g.count g.vy := rfl

theorem readK_z (g : World) : (readK g).z = copyN g.count g.vz := rfl

theorem readK_vx (g : World) : (readK g).vx = copyN g.count g.ax := rfl

theorem readK_vy (g : World) : (readK g).vy = copyN g.count g.ay := rfl

theorem readK_vz (g : World) : (readK g).vz = copyN g.count g.az := rfl

@[simp] theorem rk4ClassicalS2_count (w : World) (dt : ℝ) :
    (rk4ClassicalS2 w dt).count = w.count := rfl

@[simp] theorem rk4ClassicalS3_count (w : World) (dt : ℝ) :
    (rk4ClassicalS3 w dt).count = w.count := rfl

@[simp] theorem rk4ClassicalS4_count (w : World) (dt : ℝ) :
    (rk4ClassicalS4 w dt).count = w.count := rfl

/-- C4: for every well-formed world and every dt, `step_rk4` produces exactly
the classical four-stage Runge–Kutta result `rk4Classical` (k1…k4 the
gravity-solver derivatives at the saved pre-step state, the two half-step
intermediate states, and the full-step intermediate state, combined with the
1/6·(k1+2k2+2k3+k4) weighting), and elapsed time advances by exactly dt on
every call — the step is a total function with no error estimate. -/
theorem step_rk4_eq_classical (w : World) (dt : ℝ) (h : w.Wf) :
    step_rk4 w dt = rk4Classical w dt ∧ (step_rk4 w dt).time = w.time + dt := by
  -- stage 2: the model intermediate state agrees with the classical one
  have hpx2 : (rk4S2 w dt).px = (rk4ClassicalS2 w dt).px := by
    show seqN w.count _ = seqN w.count _
    apply seqN_congr
    intro i hi
    rw [readK_x]
    simp only [rk4G1, compute_gravity1_count, compute_gravity1_vx]
    rw [sget_copyN _ hi, sget_copyN _ hi]
    ring_nf
  have hpy2 : (rk4S2 w dt).py = (rk4ClassicalS2 w dt).py := by
    show seqN w.count _ = seqN w.count _
    apply seqN_congr
    intro i hi
    rw [readK_y]
    simp only [rk4G1, compute_gravity1_count, compute_gravity1_vy]
    rw [sget_copyN _ hi, sget_copyN _ hi]
    ring_nf
  have hpz2 : (rk4S2 w dt).pz = (rk4ClassicalS2 w dt).pz := by
    show seqN w.count _ = seqN w.count _
    apply seqN_congr
    intro i hi
    rw [readK_z]
    simp only [rk4G1, compute_gravity1_count, compute_gravity1_vz]
    rw [sget_copyN _ hi, sget_copyN _ hi]
    ring_nf
  have hvx2 : (rk4S2 w dt).vx = (rk4ClassicalS2 w dt).vx := by
    show seqN w.count _ = seqN w.count _
    apply seqN_congr
    intro i hi
    rw [readK_vx]
    simp only [rk4G1, compute_gravity1_count]
    rw [sget_copyN _ hi, sget_copyN _ hi]
    ring_nf
  have hvy2 : (rk4S2 w dt).vy = (rk4ClassicalS2 w dt).vy := by
    show seqN w.count _ = seqN w.count _
    apply seqN_congr
    intro i hi
    rw [readK_vy]
    simp only [rk4G1, compute_gravity1_count]
    rw [sget_copyN _ hi, sget_copyN _ hi]
    ring_nf
  have hvz2 : (rk4S2 w dt).vz = (rk4ClassicalS2 w dt).vz := by
    show seqN w.count _ = seqN w.count _
    apply seqN_congr
    intro i hi
    rw [readK_vz]
    simp only [rk4G1, compute_gravity1_count]
    rw [sget_copyN _ hi, sget_copyN _ hi]
    ring_nf
  have hl2x : (rk4S2 w dt).ax.length = w.ax.length := (compute_gravity_lengths w 0.0).1
  have hl2y : (rk4S2 w dt).ay.length = w.ay.length := (compute_gravity_lengths w 0.0).2.1
  have hl2z : (rk4S2 w dt).az.length = w.az.length := (compute_gravity_lengths w 0.0).2.2
  have hG2 : rk4G2 w dt = compute_gravity1 (rk4ClassicalS2 w dt) := by
    obtain ⟨e1, e2, e3⟩ :=
      compute_gravity_congr hpx2 hpy2 hpz2 rfl rfl hl2x hl2y hl2z 0.0
    exact World.ext hpx2 hpy2 hpz2 hvx2 hvy2 hvz2 e1 e2 e3 rfl rfl rfl
  -- stage 3
  have hpx3 : (rk4S3 w dt).px = (rk4ClassicalS3 w dt).px := by
    show seqN w.count _ = seqN w.count _
    apply seqN_congr
    intro i hi
    rw [readK_x, hG2]
    simp only [compute_gravity1_count, rk4ClassicalS2_count, compute_gravity1_vx]
    rw [sget_copyN _ hi, sget_copyN _ hi]
    ring_nf
  have hpy3 : (rk4S3 w dt).py = (rk4ClassicalS3 w dt).py := by
    show seqN w.count _ = seqN w.count _
    apply seqN_congr
    intro i hi
    rw [readK_y, hG2]
    simp only [compute_gravity1_count, rk4ClassicalS2_count, compute_gravity1_vy]
    rw [sget_copyN _ hi, sget_copyN _ hi]
    ring_nf
  have hpz3 : (rk4S3 w dt).pz = (rk4ClassicalS3 w dt).pz := by
    show seqN w.count _ = seqN w.count _
    apply seqN_congr
    intro i hi
    rw [readK_z, hG2]
    simp only [compute_gravity1_count, rk4ClassicalS2_count, compute_gravity1_vz]
    rw [sget_copyN _ hi, sget_copyN _ hi]
    ring_nf
  have hvx3 : (rk4S3 w dt).vx = (rk4ClassicalS3 w dt).vx := by
    show seqN w.count _ = seqN w.count _
    apply seqN_congr
    intro i hi
    rw [readK_vx, hG2]
    simp only [compute_gravity1_count, rk4ClassicalS2_count]
    rw [sget_copyN _ hi, sget_copyN _ hi]
    ring_nf
  have hvy3 : (rk4S3 w dt).vy = (rk4ClassicalS3 w dt).vy := by
    show seqN w.count _ = seqN w.count _
    apply seqN_congr
    intro i hi
    rw [readK_vy, hG2]
    simp only [compute_gravity1_count, rk4ClassicalS2_count]
    rw [sget_copyN _ hi, sget_copyN _ hi]
    ring_nf
  have hvz3 : (rk4S3 w dt).vz = (rk4ClassicalS3 w dt).vz := by
    show seqN w.count _ = seqN w.count _
    apply seqN_congr
    intro i hi
    rw [readK_vz, hG2]
    simp only [compute_gravity1_count, rk4ClassicalS2_count]
    rw [sget_copyN _ hi, sget_copyN _ hi]
    ring_nf
  have hl3x : (rk4S3 w dt).ax.length = w.ax.length :=
    ((compute_gravity_lengths (rk4S2 w dt) 0.0).1).trans hl2x
  have hl3y : (rk4S3 w dt).ay.length = w.ay.length :=
    ((compute_gravity_lengths (rk4S2 w dt) 0.0).2.1).trans hl2y
  have hl3z : (rk4S3 w dt).az.length = w.az.length :=
    ((compute_gravity_lengths (rk4S2 w dt) 0.0).2.2).trans hl2z
  have hG3 : rk4G3 w dt = compute_gravity1 (rk4ClassicalS3 w dt) := by
    obtain ⟨e1, e2, e3⟩ :=
      compute_gravity_congr hpx3 hpy3 hpz3 rfl rfl hl3x hl3y hl3z 0.0
    exact World.ext hpx3 hpy3 hpz3 hvx3 hvy3 hvz3 e1 e2 e3 rfl rfl rfl
  -- stage 4
  have hpx4 : (rk4S4 w dt).px = (rk4ClassicalS4 w dt).px := by
    show seqN w.count _ = seqN w.count _
    apply seqN_congr
    intro i hi
    rw [readK_x, hG3]
    simp only [compute_gravity1_count, rk4ClassicalS3_count, compute_gravity1_vx]
    rw [sget_copyN _ hi, sget_copyN _ hi]
  have hpy4 : (rk4S4 w dt).py = (rk4ClassicalS4 w dt).py := by
    show seqN w.count _ = seqN w.count _
    apply seqN_congr
    intro i hi
    rw [readK_y, hG3]
    simp only [compute_gravity1_count, rk4ClassicalS3_count, compute_gravity1_vy]
    rw [sget_copyN _ hi, sget_copyN _ hi]
  have hpz4 : (rk4S4 w dt).pz = (rk4ClassicalS4 w dt).pz := by
    show seqN w.count _ = seqN w.count _
    apply seqN_congr
    intro i hi
    rw [readK_z, hG3]
    simp only [compute_gravity1_count, rk4ClassicalS3_count, compute_gravity1_vz]
    rw [sget_copyN _ hi, sget_copyN _ hi]
  have hvx4 : (rk4S4 w dt).vx = (rk4ClassicalS4 w dt).vx := by
    show seqN w.count _ = seqN w.count _
    apply seqN_congr
    intro i hi
    rw [readK_vx, hG3]
    simp only [compute_gravity1_count, rk4ClassicalS3_count]
    rw [sget_copyN _ hi, sget_copyN _ hi]
  have hvy4 : (rk4S4 w dt).vy = (rk4ClassicalS4 w dt).vy := by
    show seqN w.count _ = seqN w.count _
    apply seqN_congr
    intro i hi
    rw [readK_vy, hG3]
    simp only [compute_gravity1_count, rk4ClassicalS3_count]
    rw [sget_copyN _ hi, sget_copyN _ hi]
  have hvz4 : (rk4S4 w dt).vz = (rk4ClassicalS4 w dt).vz := by
    show seqN w.count _ = seqN w.count _
    apply seqN_congr
    intro i hi
    rw [readK_vz, hG3]
    simp only [compute_gravity1_count, rk4ClassicalS3_count]
    rw [sget_copyN _ hi, sget_copyN _ hi]
  have hl4x : (rk4S4 w dt).ax.length = w.ax.length :=
    ((compute_gravity_lengths (rk4S3 w dt) 0.0).1).trans hl3x
  have hl4y : (rk4S4 w dt).ay.length = w.ay.length :=
    ((compute_gravity_lengths (rk4S3 w dt) 0.0).2.1).trans hl3y
  have hl4z : (rk4S4 w dt).az.length = w.az.length :=
    ((compute_gravity_lengths (rk4S3 w dt) 0.0).2.2).trans hl3z
  have hG4 : rk4G4 w dt = compute_gravity1 (rk4ClassicalS4 w dt) := by
    obtain ⟨e1, e2, e3⟩ :=
      compute_gravity_congr hpx4 hpy4 hpz4 rfl rfl hl4x hl4y hl4z 0.0
    exact World.ext hpx4 hpy4 hpz4 hvx4 hvy4 hvz4 e1 e2 e3 rfl rfl rfl
  -- final combination
  refine ⟨?_, rfl⟩
  refine World.ext ?_ ?_ ?_ ?_ ?_ ?_ ?_ ?_ ?_ rfl rfl rfl
  · show seqN w.count _ = seqN w.count _
    apply seqN_congr
    intro i hi
    rw [readK_x, readK_x, readK_x, readK_x, hG2, hG3, hG4]
    simp only [rk4G1, compute_gravity1_count, rk4ClassicalS2_count, rk4ClassicalS3_count,
      rk4ClassicalS4_count, compute_gravity1_vx]
    rw [sget_copyN _ hi, sget_copyN _ hi, sget_copyN _ hi, sget_copyN _ hi, sget_copyN _ hi]
    ring_nf
  · show seqN w.count _ = seqN w.count _
    apply seqN_congr
    intro i hi
    rw [readK_y, readK_y, readK_y, readK_y, hG2, hG3, hG4]
    simp only [rk4G1, compute_gravity1_count, rk4ClassicalS2_count, rk4ClassicalS3_count,
      rk4ClassicalS4_count, compute_gravity1_vy]
    rw [sget_copyN _ hi, sget_copyN _ hi, sget_copyN _ hi, sget_copyN _ hi, sget_copyN _ hi]
    ring_nf
  · show seqN w.count _ = seqN w.count _
    apply seqN_congr
    intro i hi
    rw [readK_z, readK_z, readK_z, readK_z, hG2, hG3, hG4]
    simp only [rk4G1, compute_gravity1_count, rk4ClassicalS2_count, rk4ClassicalS3_count,
      rk4ClassicalS4_count, compute_gravity1_vz]
    rw [sget_copyN _ hi, sget_copyN _ hi, sget_copyN _ hi, sget_copyN _ hi, sget_copyN _ hi]
    ring_nf
  · show seqN w.count _ = seqN w.count _
    apply seqN_congr
    intro i hi
    rw [readK_vx, readK_vx, readK_vx, readK_vx, hG2, hG3, hG4]
    simp only [rk4G1, compute_gravity1_count, rk4ClassicalS2_count, rk4ClassicalS3_count,
      rk4ClassicalS4_count]
    rw [sget_copyN _ hi, sget_copyN _ hi, sget_copyN _ hi, sget_copyN _ hi, sget_copyN _ hi]
    ring_nf
  · show seqN w.count _ = seqN w.count _
    apply seqN_congr
    intro i hi
    rw [readK_vy, readK_vy, readK_vy, readK_vy, hG2, hG3, hG4]
    simp only [rk4G1, compute_gravity1_count, rk4ClassicalS2_count, rk4ClassicalS3_count,
      rk4ClassicalS4_count]
    rw [sget_copyN _ hi, sget_copyN _ hi, sget_copyN _ hi, sget_copyN _ hi, sget_copyN _ hi]
    ring_nf
  · show seqN w.count _ = seqN w.count _
    apply seqN_congr
    intro i hi
    rw [readK_vz, readK_vz, readK_vz, readK_vz, hG2, hG3, hG4]
    simp only [rk4G1, compute_gravity1_count, rk4ClassicalS2_count, rk4ClassicalS3_count,
      rk4ClassicalS4_count]
    rw [sget_copyN _ hi, sget_copyN _ hi, sget_copyN _ hi, sget_copyN _ hi, sget_copyN _ hi]
    ring_nf
  · show (rk4G4 w dt).ax = (compute_gravity1 (rk4ClassicalS4 w dt)).ax
    exact congrArg World.ax hG4
  · show (rk4G4 w dt).ay = (compute_gravity1 (rk4ClassicalS4 w dt)).ay
    exact congrArg World.ay hG4
  · show (rk4G4 w dt).az = (compute_gravity1 (rk4ClassicalS4 w dt)).az
    exact congrArg World.az hG4

/-- Witness for C4 at a concrete input: the one-body world, dt = 1. -/
theorem step_rk4_eq_classical_witness :
    oneBody.Wf ∧ step_rk4 oneBody 1 = rk4Classical oneBody 1 ∧
      (step_rk4 oneBody 1).time = oneBody.time + 1 :=
  ⟨oneBody_Wf, (step_rk4_eq_classical oneBody 1 oneBody_Wf).1,
    (step_rk4_eq_classical oneBody 1 oneBody_Wf).2⟩

/-! ## Claim C7 -/

theorem compute_gravity_twoBody (p0 v0 : Vec3) (m0 : ℝ) (p1 v1 : Vec3) (m1 s : ℝ) :
    (compute_gravity (twoBody p0 v0 m0 p1 v1 m1) s).ax =
      [(pairAccel p0 p1 s).1 * m1, -((pairAccel p0 p1 s).1 * m0)] ∧
    (compute_gravity (twoBody p0 v0 m0 p1 v1 m1) s).ay =
      [(pairAccel p0 p1 s).2.1 * m1, -((pairAccel p0 p1 s).2.1 * m0)] ∧
    (compute_gravity (twoBody p0 v0 m0 p1 v1 m1) s).az =
      [(pairAccel p0 p1 s).2.2 * m1, -((pairAccel p0 p1 s).2.2 * m0)] := by
  unfold compute_gravity gravOuter gravInner twoBody World.add_body World.emptyWorld pairAccel
  norm_num [sget, List.range_succ]

/-- Softening strictly increases the cubed distance factor, hence strictly
decreases the `1/(dist2·dist)` kernel. -/
theorem inv_dist3_strict {q s : ℝ} (hq : 0 < q) (hs : 0 < s) :
    1 / ((q + s * s) * Real.sqrt (q + s * s)) < 1 / (q * Real.sqrt q) := by
  have hss : 0 < s * s := mul_pos hs hs
  have h1 : 0 < Real.sqrt q := Real.sqrt_pos.mpr hq
  have h2 : Real.sqrt q < Real.sqrt (q + s * s) := Real.sqrt_lt_sqrt hq.le (by linarith)
  have hB : 0 < q * Real.sqrt q := mul_pos hq h1
  have hA : q * Real.sqrt q < (q + s * s) * Real.sqrt (q + s * s) :=
    mul_lt_mul'' (by linarith) h2 hq.le h1.le
  exact one_div_lt_one_div_of_lt hB hA

/-- Scaling the pairwise force vector by a strictly smaller nonnegative
kernel yields a strictly smaller Euclidean magnitude (fixed direction
`(dx,dy,dz) ≠ 0`, fixed positive mass factor `c`). -/
theorem mag_scaled_lt {dx dy dz a b c : ℝ} (hq : 0 < dx * dx + dy * dy + dz * dz)
    (hc : 0 < c) (h0 : 0 ≤ a) (hab : a < b) :
    Real.sqrt ((constants.G * dx * a * c) ^ 2 + (constants.G * dy * a * c) ^ 2 +
      (constants.G * dz * a * c) ^ 2) <
    Real.sqrt ((constants.G * dx * b * c) ^ 2 + (constants.G * dy * b * c) ^ 2 +
      (constants.G * dz * b * c) ^ 2) := by
  apply Real.sqrt_lt_sqrt (by positivity)
  have hG : 0 < constants.G := by norm_num [constants.G]
  have hb2 : a ^ 2 < b ^ 2 := by nlinarith
  have key : 0 < (constants.G * c) ^ 2 * (dx * dx + dy * dy + dz * dz) * (b ^ 2 - a ^ 2) := by
    apply mul_pos (mul_pos (by positivity) hq)
    linarith
  nlinarith [key]

theorem sget_pair_zero (u v : ℝ) : sget [u, v] 0 = u := rfl

theorem sget_pair_one (u v : ℝ) : sget [u, v] 1 = v := rfl

/-- C7: for two bodies with positive masses at non-coincident positions
(separation d > 0), the acceleration magnitude of each body computed by
`compute_gravity` with softening ε > 0 (effective squared distance d² + ε²)
is strictly smaller than the magnitude computed with softening 0 at the same
separation; and the one-argument `compute_gravity` overload produces exactly
the result of the two-argument overload with softening 0. -/
theorem softened_gravity_weaker (p0 v0 : Vec3) (m0 : ℝ) (p1 v1 : Vec3) (m1 eps : ℝ)
    (hm0 : 0 < m0) (hm1 : 0 < m1) (heps : 0 < eps)
    (hq : 0 < (p1.x - p0.x) * (p1.x - p0.x) + (p1.y - p0.y) * (p1.y - p0.y) +
      (p1.z - p0.z) * (p1.z - p0.z)) :
    accelMag (compute_gravity (twoBody p0 v0 m0 p1 v1 m1) eps) 0 <
      accelMag (compute_gravity (twoBody p0 v0 m0 p1 v1 m1) 0) 0 ∧
    accelMag (compute_gravity (twoBody p0 v0 m0 p1 v1 m1) eps) 1 <
      accelMag (compute_gravity (twoBody p0 v0 m0 p1 v1 m1) 0) 1 ∧
    (∀ w : World, compute_gravity1 w = compute_gravity w 0) := by
  obtain ⟨haxE, hayE, hazE⟩ := compute_gravity_twoBody p0 v0 m0 p1 v1 m1 eps
  obtain ⟨hax0, hay0, haz0⟩ := compute_gravity_twoBody p0 v0 m0 p1 v1 m1 0
  set dx := p1.x - p0.x with hdx
  set dy := p1.y - p0.y with hdy
  set dz := p1.z - p0.z with hdz
  have hqe : 0 < dx * dx + dy * dy + dz * dz + eps * eps := by nlinarith
  have hsq : 0 < Real.sqrt (dx * dx + dy * dy + dz * dz + eps * eps) :=
    Real.sqrt_pos.mpr hqe
  have hinvE_nonneg : 0 ≤ 1.0 / ((dx * dx + dy * dy + dz * dz + eps * eps) *
      Real.sqrt (dx * dx + dy * dy + dz * dz + eps * eps)) := by positivity
  have hlt : 1.0 / ((dx * dx + dy * dy + dz * dz + eps * eps) *
      Real.sqrt (dx * dx + dy * dy + dz * dz + eps * eps)) <
      1.0 / ((dx * dx + dy * dy + dz * dz) * Real.sqrt (dx * dx + dy * dy + dz * dz)) := by
    have h := inv_dist3_strict hq heps
    norm_num at h ⊢
    exact h
  refine ⟨?_, ?_, fun w => by norm_num [compute_gravity1]⟩
  · unfold accelMag
    rw [haxE, hayE, hazE, hax0, hay0, haz0]
    unfold pairAccel
    simp only [sget_pair_zero]
    simp only [mul_zero, add_zero]
    exact mag_scaled_lt hq hm1 hinvE_nonneg hlt
  · unfold accelMag
    rw [haxE, hayE, hazE, hax0, hay0, haz0]
    unfold pairAccel
    simp only [sget_pair_one]
    simp only [mul_zero, add_zero, neg_sq]
    exact mag_scaled_lt hq hm0 hinvE_nonneg hlt

/-- Witness for C7 at a concrete input: unit masses at the origin and at
(1,0,0), softening 1 versus softening 0. -/
theorem softened_gravity_weaker_witness :
    ((0 : ℝ) < 1 ∧
      (0 : ℝ) < ((⟨1, 0, 0⟩ : Vec3).x - (⟨0, 0, 0⟩ : Vec3).x) *
          ((⟨1, 0, 0⟩ : Vec3).x - (⟨0, 0, 0⟩ : Vec3).x) +
        ((⟨1, 0, 0⟩ : Vec3).y - (⟨0, 0, 0⟩ : Vec3).y) *
          ((⟨1, 0, 0⟩ : Vec3).y - (⟨0, 0, 0⟩ : Vec3).y) +
        ((⟨1, 0, 0⟩ : Vec3).z - (⟨0, 0, 0⟩ : Vec3).z) *
          ((⟨1, 0, 0⟩ : Vec3).z - (⟨0, 0, 0⟩ : Vec3).z)) ∧
    accelMag (compute_gravity (twoBody ⟨0, 0, 0⟩ ⟨0, 0, 0⟩ 1 ⟨1, 0, 0⟩ ⟨0, 0, 0⟩ 1) 1) 0 <
      accelMag (compute_gravity (twoBody ⟨0, 0, 0⟩ ⟨0, 0, 0⟩ 1 ⟨1, 0, 0⟩ ⟨0, 0, 0⟩ 1) 0) 0 ∧
    compute_gravity1 (twoBody ⟨0, 0, 0⟩ ⟨0, 0, 0⟩ 1 ⟨1, 0, 0⟩ ⟨0, 0, 0⟩ 1) =
      compute_gravity (twoBody ⟨0, 0, 0⟩ ⟨0, 0, 0⟩ 1 ⟨1, 0, 0⟩ ⟨0, 0, 0⟩ 1) 0 := by
  have hq : (0 : ℝ) < ((⟨1, 0, 0⟩ : Vec3).x - (⟨0, 0, 0⟩ : Vec3).x) *
      ((⟨1, 0, 0⟩ : Vec3).x - (⟨0, 0, 0⟩ : Vec3).x) +
      ((⟨1, 0, 0⟩ : Vec3).y - (⟨0, 0, 0⟩ : Vec3).y) *
        ((⟨1, 0, 0⟩ : Vec3).y - (⟨0, 0, 0⟩ : Vec3).y) +
      ((⟨1, 0, 0⟩ : Vec3).z - (⟨0, 0, 0⟩ : Vec3).z) *
        ((⟨1, 0, 0⟩ : Vec3).z - (⟨0, 0, 0⟩ : Vec3).z) := by
    show (0 : ℝ) < (1 - 0) * (1 - 0) + (0 - 0) * (0 - 0) + (0 - 0) * (0 - 0)
    norm_num
  obtain ⟨h1, _, h3⟩ :=
    softened_gravity_weaker ⟨0, 0, 0⟩ ⟨0, 0, 0⟩ 1 ⟨1, 0, 0⟩ ⟨0, 0, 0⟩ 1 1
      one_pos one_pos one_pos hq
  exact ⟨⟨one_pos, hq⟩, h1, h3 _⟩
